import Mathlib

/-!
# MoltGo: credential and state store, HTTP client

A shallow embedding of `pkg/config/config.go`, `pkg/moltbook/client.go` and the commands
`cmd/register.go`, `cmd/post.go`, `cmd/comment.go`, `cmd/heartbeat.go` and `cmd/status.go`.

Conventions of the embedding.

* A Go `error` is the text that `err.Error()` yields; `fmt.Errorf` with `%w`, `%v` or `%s`
  is string concatenation. A Go function returning `(T, error)` is an `Except String T`.
* Go strings and byte slices are both `Bytes` (conversions between them are the identity).
* The process environment, the file system, standard output and the network are the fields of
  `World`. Code that changes them returns the new `World` next to its result.
* Third-party packages (`encoding/json`, `BurntSushi/toml`, the validating part of
  `http.NewRequest`, `time`) are the fields of `Lib`, `JSONLib` and `TimeLib`: the code is
  verified for every behaviour of them.
* A Go `int` has 64 bits; arithmetic on it wraps around (`wrapInt`).
-/

namespace MoltGo

/-- Go strings and byte slices. -/
abbrev Bytes := String

deriving instance DecidableEq for Except

/-! ## Data model -/

/-- The struct `Config` of `pkg/config/config.go`. -/
structure Config where
  APIKey : String
  AgentName : String
deriving DecidableEq, Repr

/-- The struct `State` of `pkg/config/config.go`; the counters are Go `int`s. -/
structure State where
  LastMoltbookCheck : String
  PostsCreated : Int
  CommentsCreated : Int
  LastPostTime : String
deriving DecidableEq, Repr

/-- The value of `&State{}`: every field has its zero value. -/
def State.zero : State :=
  { LastMoltbookCheck := "", PostsCreated := 0, CommentsCreated := 0, LastPostTime := "" }

/-- The struct `RegisterRequest` of `pkg/moltbook/client.go`. -/
structure RegisterRequest where
  Name : String
  Description : String
deriving DecidableEq, Repr

/-- The struct `AgentRegistration`: the agent data nested in a registration response. -/
structure AgentRegistration where
  ID : String
  Name : String
  APIKey : String
  ClaimURL : String
  VerificationCode : String
  ProfileURL : String
  CreatedAt : String
deriving DecidableEq, Repr

/-- The struct `RegisterResponse`; the pointer field `Agent` is an `Option`, `nil` being
`none`. -/
structure RegisterResponse where
  Success : Bool
  Error : String
  Hint : String
  Message : String
  Agent : Option AgentRegistration
  TweetTemplate : String
  APIKey : String
  AgentID : String
  ClaimURL : String
  VerificationCode : String
deriving DecidableEq, Repr

/-- The struct `UpdateProfileRequest`. -/
structure UpdateProfileRequest where
  Description : String
deriving DecidableEq, Repr

/-- The struct `CreatePostRequest`. -/
structure CreatePostRequest where
  Submolt : String
  Title : String
  Content : String
  URL : String
deriving DecidableEq, Repr

/-- The struct `CreateCommentRequest`. -/
structure CreateCommentRequest where
  Content : String
deriving DecidableEq, Repr

/-- The struct `VoteRequest`. -/
structure VoteRequest where
  TargetType : String
  TargetID : String
  Direction : String
deriving DecidableEq, Repr

/-- The values that the client passes to `json.Marshal` as a request payload. -/
inductive Payload where
  | register (r : RegisterRequest)
  | updateProfile (r : UpdateProfileRequest)
  | createPost (r : CreatePostRequest)
  | createComment (r : CreateCommentRequest)
  | vote (r : VoteRequest)
deriving DecidableEq, Repr

/-- The struct `Client`: the API key and the timeout of its HTTP client, in seconds. -/
structure Client where
  apiKey : String
  timeoutSeconds : Nat
deriving DecidableEq, Repr

/-- An error of package `os`: its text and whether `os.IsNotExist` holds of it. -/
structure OSError where
  msg : String
  notExist : Bool
deriving DecidableEq, Repr

/-- The type `http.Header`, as an association list from header names to values. -/
abbrev Header := List (String × String)

/-- The method `Header.Get`: the value stored under the key, the empty string when there is
none. -/
def Header.Get (h : Header) (key : String) : String :=
  match h.find? (fun kv => kv.1 == key) with
  | some kv => kv.2
  | none => ""

/-- The method `Header.Set`: the key gets the single value, replacing what it had. The keys
used by the client are already in canonical form. -/
def Header.Set (h : Header) (key value : String) : Header :=
  (key, value) :: h.filter (fun kv => !(kv.1 == key))

/-- Whether the header has an entry under the key. -/
def Header.Has (h : Header) (key : String) : Bool :=
  h.any (fun kv => kv.1 == key)

/-- An `http.Request` as the client builds it: method, URL, optional body, headers. -/
structure Request where
  Method : String
  URL : String
  Body : Option Bytes
  Header : Header
deriving DecidableEq, Repr

/-- An `http.Response` as the client reads it: status code, headers, and what `io.ReadAll`
of the body yields. -/
structure Response where
  StatusCode : Int
  Header : Header
  Body : Except String Bytes

/-- The process environment, the file system, standard output and the network.

* `getenv` is `os.Getenv`; `userHomeDir` is `os.UserHomeDir`; `readFile` is `os.ReadFile`.
* `mkdirAllErr` and `writeFileErr` give the error of `os.MkdirAll` and `os.WriteFile` at a
  path, `none` when the call succeeds.
* `stdout` is the text printed so far, oldest first.
* `httpDo` is the answer of `http.Client.Do` to a request (an error for a transport failure
  or a timeout) and `sent` lists the requests handed to it, oldest first. -/
structure World where
  getenv : String → String
  userHomeDir : Except String String
  readFile : String → Except OSError Bytes
  mkdirAllErr : String → Option String
  writeFileErr : String → Option String
  stdout : List String
  httpDo : Request → Except String Response
  sent : List Request

/-- The world in which reading `path` yields `r` and nothing else differs. -/
def World.setFile (w : World) (path : String) (r : Except OSError Bytes) : World :=
  { w with readFile := fun p => if p = path then r else w.readFile p }

/-- The call `os.WriteFile(path, data, perm)`: either it fails and the files are as before, or
it succeeds and reading `path` yields `data` from then on. -/
def World.writeFile (w : World) (path : String) (data : Bytes) : Option String × World :=
  match w.writeFileErr path with
  | some e => (some e, w)
  | none => (none, w.setFile path (.ok data))

/-- The calls `fmt.Printf` and `fmt.Println`: the text is appended to standard output. -/
def World.print (w : World) (text : String) : World :=
  { w with stdout := w.stdout ++ [text] }

/-- The call `http.Client.Do`: the request is recorded as sent and the network answers. -/
def World.Do (w : World) (req : Request) : Except String Response × World :=
  (w.httpDo req, { w with sent := w.sent ++ [req] })

/-- The function `filepath.Join` on path elements that are already clean: the elements joined
by the separator. -/
def filepathJoin (elems : List String) : String :=
  String.intercalate "/" elems

/-! ## Third-party packages -/

/-- What the code needs of `encoding/json`, `BurntSushi/toml` and `net/http`: each field is
the library call at one Go type. `newRequestErr method url` is the error with which
`http.NewRequest` rejects a method or a URL, `none` when it accepts them. -/
structure Lib where
  jsonUnmarshalConfig : Bytes → Except String Config
  tomlUnmarshalConfig : Bytes → Except String Config
  tomlEncodeConfig : Config → Except String Bytes
  tomlUnmarshalState : Bytes → Except String State
  tomlEncodeState : State → Except String Bytes
  jsonMarshal : Payload → Except String Bytes
  jsonUnmarshalRegisterResponse : Bytes → Except String RegisterResponse
  newRequestErr : String → String → Option String

/-! ## Package `config` -/

/-- The text of the error of `LoadCredentials` when no credentials are found. -/
def errNotConfigured : String :=
  "no credentials found - please run 'moltgo register' first or set MOLTBOOK_API_KEY environment variable"

/-- The function `GetConfigDir`. -/
def GetConfigDir (w : World) : Except String String :=
  match w.userHomeDir with
  | .error err => .error ("failed to get home directory: " ++ err)
  | .ok home => .ok (filepathJoin [home, ".config", "moltbook"])

/-- The function `GetCredentialsPath`. -/
def GetCredentialsPath (w : World) : Except String String :=
  match GetConfigDir w with
  | .error err => .error err
  | .ok configDir => .ok (filepathJoin [configDir, "config.toml"])

/-- The function `GetStatePath`. -/
def GetStatePath (w : World) : Except String String :=
  match GetConfigDir w with
  | .error err => .error err
  | .ok configDir => .ok (filepathJoin [configDir, "state.toml"])

/-- The function `LoadCredentials`: environment first, then `credentials.json`, then
`config.toml`. The inner `match` is the JSON attempt, which yields a record or falls
through. -/
def LoadCredentials (lib : Lib) (w : World) : Except String Config :=
  let apiKey := w.getenv "MOLTBOOK_API_KEY"
  let agentName := w.getenv "MOLTBOOK_AGENT_NAME"
  if apiKey ≠ "" then
    .ok { APIKey := apiKey, AgentName := if agentName = "" then "MoltGoAgent" else agentName }
  else
    match GetConfigDir w with
    | .error err => .error err
    | .ok configDir =>
      let jsonPath := filepathJoin [configDir, "credentials.json"]
      let fromJSON : Option Config :=
        match w.readFile jsonPath with
        | .ok data =>
          match lib.jsonUnmarshalConfig data with
          | .ok config => some config
          | .error _ => none
        | .error _ => none
      match fromJSON with
      | some config => .ok config
      | none =>
        match GetCredentialsPath w with
        | .error err => .error err
        | .ok path =>
          match w.readFile path with
          | .error err =>
            if err.notExist then .error errNotConfigured
            else .error ("failed to read credentials: " ++ err.msg)
          | .ok data =>
            match lib.tomlUnmarshalConfig data with
            | .error err => .error ("failed to parse credentials: " ++ err)
            | .ok config => .ok config

/-- The function `SaveCredentials`. -/
def SaveCredentials (lib : Lib) (config : Config) (w : World) : Except String Unit × World :=
  match GetConfigDir w with
  | .error err => (.error err, w)
  | .ok configDir =>
    match w.mkdirAllErr configDir with
    | some err => (.error ("failed to create config directory: " ++ err), w)
    | none =>
      match GetCredentialsPath w with
      | .error err => (.error err, w)
      | .ok path =>
        match lib.tomlEncodeConfig config with
        | .error err => (.error ("failed to marshal credentials: " ++ err), w)
        | .ok buf =>
          match w.writeFile path buf with
          | (some err, w1) => (.error ("failed to write credentials: " ++ err), w1)
          | (none, w1) => (.ok (), w1)

/-- The function `LoadState`. -/
def LoadState (lib : Lib) (w : World) : Except String State :=
  match GetStatePath w with
  | .error err => .error err
  | .ok path =>
    match w.readFile path with
    | .error err =>
      if err.notExist then .ok State.zero
      else .error ("failed to read state: " ++ err.msg)
    | .ok data =>
      match lib.tomlUnmarshalState data with
      | .error err => .error ("failed to parse state: " ++ err)
      | .ok state => .ok state

/-- The function `SaveState`. -/
def SaveState (lib : Lib) (state : State) (w : World) : Except String Unit × World :=
  match GetConfigDir w with
  | .error err => (.error err, w)
  | .ok configDir =>
    match w.mkdirAllErr configDir with
    | some err => (.error ("failed to create config directory: " ++ err), w)
    | none =>
      match GetStatePath w with
      | .error err => (.error err, w)
      | .ok path =>
        match lib.tomlEncodeState state with
        | .error err => (.error ("failed to marshal state: " ++ err), w)
        | .ok buf =>
          match w.writeFile path buf with
          | (some err, w1) => (.error ("failed to write state: " ++ err), w1)
          | (none, w1) => (.ok (), w1)

/-! ## Package `moltbook` -/

/-- The constant `BaseURL`. -/
def BaseURL : String := "https://www.moltbook.com/api/v1"

/-- The function `NewClient`. -/
def NewClient (apiKey : String) : Client :=
  { apiKey := apiKey, timeoutSeconds := 30 }

/-- The function `http.NewRequest`: the library validates method and URL, and the request it
returns has an empty header map. -/
def NewRequest (lib : Lib) (method url : String) (body : Option Bytes) : Except String Request :=
  match lib.newRequestErr method url with
  | some err => .error err
  | none => .ok { Method := method, URL := url, Body := body, Header := [] }

/-- The function `Register`. -/
def Register (lib : Lib) (name description : String) (w : World) :
    Except String RegisterResponse × World :=
  let reqData : RegisterRequest := { Name := name, Description := description }
  match lib.jsonMarshal (.register reqData) with
  | .error err => (.error ("failed to marshal request: " ++ err), w)
  | .ok jsonData =>
    match NewRequest lib "POST" (BaseURL ++ "/agents/register") (some jsonData) with
    | .error err => (.error ("failed to create request: " ++ err), w)
    | .ok req =>
      let req := { req with Header := req.Header.Set "Content-Type" "application/json" }
      match w.Do req with
      | (.error err, w1) => (.error ("failed to make request: " ++ err), w1)
      | (.ok resp, w1) =>
        match resp.Body with
        | .error err => (.error ("failed to read response: " ++ err), w1)
        | .ok body =>
          match lib.jsonUnmarshalRegisterResponse body with
          | .error err =>
            if resp.StatusCode ≠ 200 ∧ resp.StatusCode ≠ 201 then
              (.error ("registration failed (status " ++ toString resp.StatusCode ++ "): "
                ++ body), w1)
            else (.error ("failed to parse response: " ++ err), w1)
          | .ok result =>
            if result.Success = false ∧ result.Error ≠ "" then
              let errMsg :=
                if result.Hint ≠ "" then result.Error ++ " - " ++ result.Hint else result.Error
              (.error ("registration failed: " ++ errMsg), w1)
            else if resp.StatusCode ≠ 200 ∧ resp.StatusCode ≠ 201 then
              (.error ("registration failed (status " ++ toString resp.StatusCode ++ "): "
                ++ body), w1)
            else
              match result.Agent with
              | some agent =>
                let result :=
                  if result.APIKey = "" then { result with APIKey := agent.APIKey } else result
                let result :=
                  if result.AgentID = "" then { result with AgentID := agent.ID } else result
                let result :=
                  if result.ClaimURL = "" then { result with ClaimURL := agent.ClaimURL }
                  else result
                let result :=
                  if result.VerificationCode = "" then
                    { result with VerificationCode := agent.VerificationCode }
                  else result
                (.ok result, w1)
              | none => (.ok result, w1)

/-- The method `Client.doRequest`; a `nil` body is `none`, and `marshalled` is the outcome of
the first `if` block, the reader over the marshalled body. -/
def doRequest (lib : Lib) (c : Client) (method endpoint : String) (body : Option Payload)
    (w : World) : Except String Bytes × World :=
  let marshalled : Except String (Option Bytes) :=
    match body with
    | none => .ok none
    | some b =>
      match lib.jsonMarshal b with
      | .error err => .error ("failed to marshal request: " ++ err)
      | .ok jsonData => .ok (some jsonData)
  match marshalled with
  | .error err => (.error err, w)
  | .ok reqBody =>
    let url := BaseURL ++ endpoint
    match NewRequest lib method url reqBody with
    | .error err => (.error ("failed to create request: " ++ err), w)
    | .ok req =>
      let req := { req with Header := req.Header.Set "Content-Type" "application/json" }
      let req :=
        if c.apiKey ≠ "" then
          { req with Header := req.Header.Set "Authorization" ("Bearer " ++ c.apiKey) }
        else req
      match w.Do req with
      | (.error err, w1) => (.error ("failed to make request: " ++ err), w1)
      | (.ok resp, w1) =>
        match resp.Body with
        | .error err => (.error ("failed to read response: " ++ err), w1)
        | .ok respBody =>
          if resp.StatusCode = 429 then
            let retryAfter := resp.Header.Get "Retry-After"
            (.error ("rate limited (retry after " ++ retryAfter ++ " seconds)"), w1)
          else if resp.StatusCode < 200 ∨ resp.StatusCode ≥ 300 then
            (.error ("API error (status " ++ toString resp.StatusCode ++ "): " ++ respBody), w1)
          else (.ok respBody, w1)

/-! ## Package `cmd` -/

/-- The function `runRegister`; the flag variables `agentName`, `agentDescription`,
`useEnvFile` and `exportFormat` are its arguments. In `Bytes` a character stands for a byte,
so `len` is `String.length` and the slice `[:20]` is `String.take 20`. -/
def runRegister (lib : Lib) (agentName agentDescription : String)
    (useEnvFile exportFormat : Bool) (w : World) : Except String Unit × World :=
  let w := w.print ("Registering agent '" ++ agentName ++ "'...\n")
  match Register lib agentName agentDescription w with
  | (.error err, w) => (.error ("registration failed: " ++ err), w)
  | (.ok result, w) =>
    let w := w.print "Registration successful!\n"
    let w := if result.AgentID ≠ "" then w.print ("  Agent ID: " ++ result.AgentID ++ "\n") else w
    if result.APIKey ≠ "" then
      let w :=
        if result.APIKey.length > 20 then
          w.print ("  API Key: " ++ result.APIKey.take 20 ++ "...\n")
        else w.print ("  API Key: " ++ result.APIKey ++ "\n")
      if exportFormat then
        let w := w.print "\n# Add these to your shell profile (~/.bashrc, ~/.zshrc, etc.):\n"
        let w := w.print ("export MOLTBOOK_API_KEY=\"" ++ result.APIKey ++ "\"\n")
        let w := w.print ("export MOLTBOOK_AGENT_NAME=\"" ++ agentName ++ "\"\n")
        (.ok (), w)
      else
        let saved : Except String Unit × World :=
          if useEnvFile then
            let envPath := ".env"
            let envContent :=
              "MOLTBOOK_API_KEY=" ++ result.APIKey ++ "\nMOLTBOOK_AGENT_NAME=" ++ agentName
                ++ "\n"
            match w.writeFile envPath envContent with
            | (some err, w) => (.error ("failed to write .env file: " ++ err), w)
            | (none, w) =>
              let w := w.print ("\nCredentials saved to " ++ envPath ++ "\n")
              let w := w.print "\n  To use: source .env\n"
              (.ok (), w)
          else
            let cfg : Config := { APIKey := result.APIKey, AgentName := agentName }
            match SaveCredentials lib cfg w with
            | (.error err, w) => (.error ("failed to save credentials: " ++ err), w)
            | (.ok (), w) =>
              let credPath :=
                match GetCredentialsPath w with
                | .ok path => path
                | .error _ => ""
              let w := w.print ("\nCredentials saved to " ++ credPath ++ "\n")
              let w := w.print "\n  Or set as environment variables:\n"
              let w := w.print ("    export MOLTBOOK_API_KEY=\"" ++ result.APIKey ++ "\"\n")
              let w := w.print ("    export MOLTBOOK_AGENT_NAME=\"" ++ agentName ++ "\"\n")
              (.ok (), w)
        match saved with
        | (.error err, w) => (.error err, w)
        | (.ok (), w) =>
          let w := w.print "\nIMPORTANT: Share this claim URL with your human:\n"
          let w := w.print ("  " ++ result.ClaimURL ++ "\n")
          let w := w.print ("\n  Verification code: " ++ result.VerificationCode ++ "\n")
          let w := w.print "\n  Tweet this URL to verify ownership of your agent!\n"
          (.ok (), w)
    else (.error "registration returned empty API key", w)

/-! ## Further data of package `moltbook` -/

/-- The struct `Post`; `Score` and `NumComments` are Go `int`s. -/
structure Post where
  ID : String
  Submolt : String
  Title : String
  Content : String
  URL : String
  Author : String
  Score : Int
  NumComments : Int
  CreatedAt : String
deriving DecidableEq, Repr

/-- The struct `Comment`. -/
structure Comment where
  ID : String
  PostID : String
  Content : String
  Author : String
  Score : Int
  CreatedAt : String
deriving DecidableEq, Repr

/-- The struct `Agent`. -/
structure Agent where
  ID : String
  Name : String
  Description : String
  AvatarURL : String
  CreatedAt : String
deriving DecidableEq, Repr

/-- The struct `GetProfileResponse`. -/
structure GetProfileResponse where
  Success : Bool
  Agent : Agent
deriving DecidableEq, Repr

/-- The struct `BrowsePostsRequest`; `Limit` is a Go `int`. -/
structure BrowsePostsRequest where
  Submolt : String
  Limit : Int
deriving DecidableEq, Repr

/-- The struct `BrowsePostsResponse`; a `nil` slice is the empty list. -/
structure BrowsePostsResponse where
  Posts : List Post
deriving DecidableEq, Repr

/-- What the client operations need of `encoding/json` beyond `Lib`: `json.Unmarshal` at the
Go types of the responses. -/
structure JSONLib where
  jsonUnmarshalGetProfileResponse : Bytes → Except String GetProfileResponse
  jsonUnmarshalAgent : Bytes → Except String Agent
  jsonUnmarshalBrowsePostsResponse : Bytes → Except String BrowsePostsResponse
  jsonUnmarshalPost : Bytes → Except String Post
  jsonUnmarshalComment : Bytes → Except String Comment

/-- What the commands need of package `time`. A `time.Time` is its number of nanoseconds
since the Unix epoch and a `time.Duration` its number of nanoseconds. `Parse layout text` is
`time.Parse`, `Format layout t` is `Time.Format`, and `Hours d` and `Minutes d` are the Go
expressions `int(d.Hours())` and `int(d.Minutes())`, whose floating-point part stays in the
library. -/
structure TimeLib where
  Parse : String → String → Except String Int
  Format : String → Int → String
  Hours : Int → Int
  Minutes : Int → Int

/-! ## Machine integers and time -/

/-- The value that a Go `int` of 64 bits holds after an arithmetic result `x`: `x` wrapped
around into `[-2^63, 2^63)`. -/
def wrapInt (x : Int) : Int :=
  (x + 9223372036854775808) % 18446744073709551616 - 9223372036854775808

/-- The largest Go `int` of 64 bits. -/
def maxInt : Int := 9223372036854775807

/-- The smallest Go `int` of 64 bits. -/
def minInt : Int := -9223372036854775808

/-- The constant `time.Minute`, in nanoseconds. -/
def Minute : Int := 60000000000

/-- The constant `time.Hour`, in nanoseconds. -/
def Hour : Int := 3600000000000

/-- The constant `time.RFC3339`. -/
def RFC3339 : String := "2006-01-02T15:04:05Z07:00"

/-- The method `Time.Sub`, which `time.Since` applies to the current time: the difference,
replaced by the largest or smallest duration when it does not fit one. -/
def timeSub (t u : Int) : Int :=
  if t - u > maxInt then maxInt else if t - u < minInt then minInt else t - u

/-- The slice expression `s[:n]` on a string: the first `n` bytes when `n ≤ len(s)`, no value
when the bounds check fails and the Go runtime panics. In `Bytes` a character stands for a
byte. -/
def sliceTo (s : Bytes) (n : Nat) : Option Bytes :=
  if n ≤ s.length then some (s.take n) else none

/-- How the run of a command ends: the command returns its `error` value, or the Go runtime
aborts it with a panic. -/
inductive Exit where
  | returned (result : Except String Unit)
  | panicked (msg : String)
deriving DecidableEq, Repr

/-! ## JSON encoding of the request structs -/

/-- A member of a Go struct as `json.Marshal` sees it: the key and the `omitempty` option of
its `json` tag, and its value (every member of the request structs is a string). -/
structure JSONField where
  key : String
  omitEmpty : Bool
  value : String
deriving DecidableEq, Repr

/-- The members of the request structs with their `json` tags, as the struct declarations of
`pkg/moltbook/client.go` give them. -/
def Payload.jsonFields : Payload → List JSONField
  | .register r =>
    [{ key := "name", omitEmpty := false, value := r.Name },
     { key := "description", omitEmpty := false, value := r.Description }]
  | .updateProfile r =>
    [{ key := "description", omitEmpty := true, value := r.Description }]
  | .createPost r =>
    [{ key := "submolt", omitEmpty := false, value := r.Submolt },
     { key := "title", omitEmpty := false, value := r.Title },
     { key := "content", omitEmpty := true, value := r.Content },
     { key := "url", omitEmpty := true, value := r.URL }]
  | .createComment r =>
    [{ key := "content", omitEmpty := false, value := r.Content }]
  | .vote r =>
    [{ key := "target_type", omitEmpty := false, value := r.TargetType },
     { key := "target_id", omitEmpty := false, value := r.TargetID },
     { key := "direction", omitEmpty := false, value := r.Direction }]

/-- The members that `json.Marshal` emits: by the documentation of `encoding/json`, a member
with the `omitempty` option is left out when its value is empty, and every other member is
emitted with its key, in the order of declaration. -/
def jsonMembers (fields : List JSONField) : List (String × String) :=
  (fields.filter (fun f => !(f.omitEmpty && f.value == ""))).map (fun f => (f.key, f.value))

/-- The JSON text of an object with the given members, `quote` being the encoding of a
string as a JSON string literal. -/
def jsonObject (quote : String → String) (members : List (String × String)) : Bytes :=
  "\x7b" ++ String.intercalate "," (members.map (fun kv => quote kv.1 ++ ":" ++ quote kv.2))
    ++ "\x7d"

/-- The function `json.Marshal` on a request struct, with `quote` for string literals. -/
def jsonMarshalByTags (quote : String → String) (p : Payload) : Bytes :=
  jsonObject quote (jsonMembers p.jsonFields)

/-! ## Client operations -/

/-- The method `Client.GetProfile`. -/
def GetProfile (lib : Lib) (jl : JSONLib) (c : Client) (w : World) :
    Except String Agent × World :=
  match doRequest lib c "GET" "/agents/me" none w with
  | (.error err, w1) => (.error err, w1)
  | (.ok data, w1) =>
    match jl.jsonUnmarshalGetProfileResponse data with
    | .error err => (.error ("failed to parse profile: " ++ err), w1)
    | .ok response =>
      if response.Success = false then (.error "API returned success=false", w1)
      else (.ok response.Agent, w1)

/-- The method `Client.UpdateProfile`. -/
def UpdateProfile (lib : Lib) (jl : JSONLib) (c : Client) (req : UpdateProfileRequest)
    (w : World) : Except String Agent × World :=
  match doRequest lib c "PATCH" "/agents/me" (some (.updateProfile req)) w with
  | (.error err, w1) => (.error err, w1)
  | (.ok data, w1) =>
    match jl.jsonUnmarshalAgent data with
    | .error err => (.error ("failed to parse profile: " ++ err), w1)
    | .ok agent => (.ok agent, w1)

/-- The method `Client.BrowsePosts`; `%d` prints the decimal numeral of the limit. -/
def BrowsePosts (lib : Lib) (jl : JSONLib) (c : Client) (req : BrowsePostsRequest)
    (w : World) : Except String (List Post) × World :=
  let endpoint := "/posts?limit=" ++ toString req.Limit
  let endpoint := if req.Submolt ≠ "" then endpoint ++ ("&submolt=" ++ req.Submolt) else endpoint
  match doRequest lib c "GET" endpoint none w with
  | (.error err, w1) => (.error err, w1)
  | (.ok data, w1) =>
    match jl.jsonUnmarshalBrowsePostsResponse data with
    | .error err => (.error ("failed to parse posts: " ++ err), w1)
    | .ok response => (.ok response.Posts, w1)

/-- The method `Client.CreatePost`. -/
def CreatePost (lib : Lib) (jl : JSONLib) (c : Client) (req : CreatePostRequest)
    (w : World) : Except String Post × World :=
  match doRequest lib c "POST" "/posts" (some (.createPost req)) w with
  | (.error err, w1) => (.error err, w1)
  | (.ok data, w1) =>
    match jl.jsonUnmarshalPost data with
    | .error err => (.error ("failed to parse post: " ++ err), w1)
    | .ok post => (.ok post, w1)

/-- The method `Client.CreateComment`. -/
def CreateComment (lib : Lib) (jl : JSONLib) (c : Client) (postID content : String)
    (w : World) : Except String Comment × World :=
  let req : CreateCommentRequest := { Content := content }
  let endpoint := "/posts/" ++ postID ++ "/comments"
  match doRequest lib c "POST" endpoint (some (.createComment req)) w with
  | (.error err, w1) => (.error err, w1)
  | (.ok data, w1) =>
    match jl.jsonUnmarshalComment data with
    | .error err => (.error ("failed to parse comment: " ++ err), w1)
    | .ok comment => (.ok comment, w1)

/-- Two worlds with the same home directory, the same files and the same outcomes of
`os.MkdirAll` and `os.WriteFile`. -/
def World.sameDisk (w1 w2 : World) : Prop :=
  w1.userHomeDir = w2.userHomeDir ∧ w1.readFile = w2.readFile
    ∧ w1.mkdirAllErr = w2.mkdirAllErr ∧ w1.writeFileErr = w2.writeFileErr

/-! ## Commands that keep the usage state

The flag variables of a command are its first arguments. `clock k` is what the call of
`time.Now` number `k` of the run yields (the first call has number 0). -/

/-- The function `runPost`. The pair `check` is the rate-limit block: the error it returns,
if any, and the number of times it has read the clock. -/
def runPost (lib : Lib) (jl : JSONLib) (tl : TimeLib) (clock : Nat → Int)
    (postSubmolt postTitle postContent postURL : String) (w : World) :
    Except String Unit × World :=
  if postContent = "" ∧ postURL = "" then
    (.error "must provide either --content or --url", w)
  else
    match LoadCredentials lib w with
    | .error err => (.error err, w)
    | .ok cfg =>
      match LoadState lib w with
      | .error err => (.error ("failed to load state: " ++ err), w)
      | .ok state =>
        let check : Option String × Nat :=
          if state.LastPostTime ≠ "" then
            match tl.Parse RFC3339 state.LastPostTime with
            | .ok lastPost =>
              let timeSince := timeSub (clock 0) lastPost
              if timeSince < 30 * Minute then
                let waitTime := wrapInt (30 * Minute - timeSince)
                (some ("rate limit: wait " ++ toString (wrapInt (tl.Minutes waitTime + 1))
                  ++ " more minutes before posting"), 1)
              else (none, 1)
            | .error _ => (none, 0)
          else (none, 0)
        match check with
        | (some err, _) => (.error err, w)
        | (none, reads) =>
          let client := NewClient cfg.APIKey
          let req : CreatePostRequest :=
            { Submolt := postSubmolt, Title := postTitle, Content := postContent,
              URL := postURL }
          let w := w.print ("Creating post in /" ++ postSubmolt ++ "...\n")
          match CreatePost lib jl client req w with
          | (.error err, w) => (.error ("failed to create post: " ++ err), w)
          | (.ok post, w) =>
            let w := w.print "Post created successfully!\n"
            let w := w.print ("  ID: " ++ post.ID ++ "\n")
            let w := w.print ("  Title: " ++ post.Title ++ "\n")
            let w := w.print ("  Submolt: /" ++ post.Submolt ++ "\n")
            let state := { state with PostsCreated := wrapInt (state.PostsCreated + 1) }
            let state := { state with LastPostTime := tl.Format RFC3339 (clock reads) }
            match SaveState lib state w with
            | (.error err, w) =>
              (.ok (), w.print ("Warning: failed to save state: " ++ err ++ "\n"))
            | (.ok (), w) => (.ok (), w)

/-- The function `runComment`. -/
def runComment (lib : Lib) (jl : JSONLib) (commentPostID commentText : String) (w : World) :
    Except String Unit × World :=
  match LoadCredentials lib w with
  | .error err => (.error err, w)
  | .ok cfg =>
    match LoadState lib w with
    | .error err => (.error ("failed to load state: " ++ err), w)
    | .ok state =>
      let client := NewClient cfg.APIKey
      let w := w.print ("Adding comment to post " ++ commentPostID ++ "...\n")
      match CreateComment lib jl client commentPostID commentText w with
      | (.error err, w) => (.error ("failed to create comment: " ++ err), w)
      | (.ok comment, w) =>
        let w := w.print "Comment added successfully!\n"
        let w := w.print ("  ID: " ++ comment.ID ++ "\n")
        let w := w.print ("  Content: " ++ comment.Content ++ "\n")
        let state := { state with CommentsCreated := wrapInt (state.CommentsCreated + 1) }
        match SaveState lib state w with
        | (.error err, w) =>
          (.ok (), w.print ("Warning: failed to save state: " ++ err ++ "\n"))
        | (.ok (), w) => (.ok (), w)

/-- The text that the loop of `runHeartbeat` prints for the post at index `i`. -/
def heartbeatLines (w : World) (entry : Nat × Post) : World :=
  let w := w.print ("  [" ++ toString (entry.1 + 1) ++ "] " ++ entry.2.Title ++ "\n")
  let w := w.print ("      by " ++ entry.2.Author ++ " in /" ++ entry.2.Submolt ++ "\n")
  let w := w.print ("      Score: " ++ toString entry.2.Score ++ " | Comments: "
    ++ toString entry.2.NumComments ++ "\n")
  w.print "\n"

/-- The function `runHeartbeat`; its loop stops after the first three posts. -/
def runHeartbeat (lib : Lib) (jl : JSONLib) (tl : TimeLib) (clock : Nat → Int) (w : World) :
    Except String Unit × World :=
  match LoadCredentials lib w with
  | .error err => (.error err, w)
  | .ok cfg =>
    match LoadState lib w with
    | .error err => (.error ("failed to load state: " ++ err), w)
    | .ok state =>
      let client := NewClient cfg.APIKey
      let now := clock 0
      let w := w.print ("Heartbeat check at " ++ tl.Format "2006-01-02 15:04:05" now ++ "\n\n")
      let w := w.print "Browsing recent posts...\n"
      match BrowsePosts lib jl client { Submolt := "", Limit := 5 } w with
      | (.error err, w) => (.error ("failed to browse posts: " ++ err), w)
      | (.ok posts, w) =>
        let w :=
          if posts.length > 0 then
            let w := w.print ("\nFound " ++ toString posts.length ++ " recent posts:\n\n")
            (posts.take 3).enum.foldl heartbeatLines w
          else w.print "  No posts found.\n"
        let state := { state with LastMoltbookCheck := tl.Format RFC3339 now }
        let w :=
          match SaveState lib state w with
          | (.error err, w) => w.print ("\nWarning: failed to save state: " ++ err ++ "\n")
          | (.ok (), w) => w
        let w := w.print "Heartbeat complete\n"
        let nextCheck := now + 4 * Hour
        let w := w.print ("\nNext heartbeat recommended: "
          ++ tl.Format "2006-01-02 15:04:05" nextCheck ++ "\n")
        (.ok (), w)

/-- The function `formatDuration`; the Go operators `/` and `%` truncate towards zero. -/
def formatDuration (tl : TimeLib) (d : Int) : String :=
  let hours := tl.Hours d
  let minutes := (tl.Minutes d).tmod 60
  if hours > 24 then
    let days := hours.tdiv 24
    let hours := hours.tmod 24
    toString days ++ "d " ++ toString hours ++ "h " ++ toString minutes ++ "m"
  else if hours > 0 then toString hours ++ "h " ++ toString minutes ++ "m"
  else toString minutes ++ "m"

/-- The function `runStatus`. The arguments of a call are evaluated before the call, so the
slice `cfg.APIKey[:20]` is taken, and may panic, before its line is printed. -/
def runStatus (lib : Lib) (jl : JSONLib) (tl : TimeLib) (clock : Nat → Int) (w : World) :
    Exit × World :=
  match LoadCredentials lib w with
  | .error _ =>
    let w := w.print "Moltbook Agent Status\n"
    let w := w.print "  Status: Not registered\n"
    let w := w.print "\n  Run 'moltgo register' to get started!\n"
    (.returned (.ok ()), w)
  | .ok cfg =>
    match LoadState lib w with
    | .error err => (.returned (.error ("failed to load state: " ++ err)), w)
    | .ok state =>
      let w := w.print "Moltbook Agent Status\n"
      let w := w.print ("  Name: " ++ cfg.AgentName ++ "\n")
      let w := w.print "  Status: Registered\n"
      match sliceTo cfg.APIKey 20 with
      | none =>
        (.panicked ("runtime error: slice bounds out of range [:20] with length "
          ++ toString cfg.APIKey.length), w)
      | some preview =>
        let w := w.print ("  API Key: " ++ preview ++ "...\n")
        let client := NewClient cfg.APIKey
        let w :=
          match GetProfile lib jl client w with
          | (.ok profile, w) =>
            let w := if profile.ID ≠ "" then w.print ("  Agent ID: " ++ profile.ID ++ "\n") else w
            if profile.Description ≠ "" then
              w.print ("  Description: " ++ profile.Description ++ "\n")
            else w
          | (.error _, w) => w
        let w := w.print "\n  Statistics:\n"
        let w := w.print ("    Posts created: " ++ toString state.PostsCreated ++ "\n")
        let w := w.print ("    Comments created: " ++ toString state.CommentsCreated ++ "\n")
        let w :=
          if state.LastMoltbookCheck ≠ "" then
            match tl.Parse RFC3339 state.LastMoltbookCheck with
            | .ok lastCheck =>
              let w := w.print ("    Last check: "
                ++ tl.Format "2006-01-02 15:04:05" lastCheck ++ "\n")
              let timeSince := timeSub (clock 0) lastCheck
              w.print ("    Time since last check: " ++ formatDuration tl timeSince ++ "\n")
            | .error _ => w
          else w
        let w :=
          if state.LastPostTime ≠ "" then
            match tl.Parse RFC3339 state.LastPostTime with
            | .ok lastPost =>
              w.print ("    Last post: " ++ tl.Format "2006-01-02 15:04:05" lastPost ++ "\n")
            | .error _ => w
          else w
        let credPath :=
          match GetCredentialsPath w with
          | .ok path => path
          | .error _ => ""
        let statePath :=
          match GetStatePath w with
          | .ok path => path
          | .error _ => ""
        let w := w.print "\n  Config files:\n"
        let w := w.print ("    Credentials: " ++ credPath ++ "\n")
        let w := w.print ("    State: " ++ statePath ++ "\n")
        (.returned (.ok ()), w)

/-! ## Sample worlds -/

/-- A library whose decoders accept a few fixed texts and reject every other one, and whose
encoders always yield the same text. -/
def sampleLib : Lib :=
  { jsonUnmarshalConfig := fun b =>
      if b = "json" then .ok { APIKey := "jk", AgentName := "jn" } else .error "bad json"
    tomlUnmarshalConfig := fun b =>
      if b = "toml" then .ok { APIKey := "tk", AgentName := "tn" } else .error "bad toml"
    tomlEncodeConfig := fun _ => .ok "toml"
    tomlUnmarshalState := fun b =>
      if b = "state" then
        .ok { LastMoltbookCheck := "", PostsCreated := 3, CommentsCreated := 1,
              LastPostTime := "2026-01-02T03:04:05Z" }
      else .error "bad state"
    tomlEncodeState := fun _ => .ok "state"
    jsonMarshal := fun _ => .ok "payload"
    jsonUnmarshalRegisterResponse := fun b =>
      if b = "flat" then
        .ok { Success := true, Error := "", Hint := "", Message := "", Agent := none,
              TweetTemplate := "", APIKey := "key-flat", AgentID := "id-flat",
              ClaimURL := "claim-flat", VerificationCode := "code-flat" }
      else if b = "nested" then
        .ok { Success := true, Error := "", Hint := "", Message := "",
              Agent := some { ID := "id-n", Name := "n", APIKey := "key-n", ClaimURL := "claim-n",
                              VerificationCode := "code-n", ProfileURL := "", CreatedAt := "" },
              TweetTemplate := "", APIKey := "", AgentID := "", ClaimURL := "",
              VerificationCode := "" }
      else if b = "blank" then
        .ok { Success := false, Error := "", Hint := "", Message := "", Agent := none,
              TweetTemplate := "", APIKey := "", AgentID := "", ClaimURL := "",
              VerificationCode := "" }
      else .error "bad response"
    newRequestErr := fun _ _ => none }

/-- A world with a home directory, no environment variable, no file and a silent network. -/
def emptyWorld : World :=
  { getenv := fun _ => ""
    userHomeDir := .ok "/home/u"
    readFile := fun _ => .error { msg := "no such file or directory", notExist := true }
    mkdirAllErr := fun _ => none
    writeFileErr := fun _ => none
    stdout := []
    httpDo := fun _ => .error "no network"
    sent := [] }

/-- The empty world with a server that answers every request with the given status, the
header `Retry-After: 7` and the given body. -/
def serverWorld (status : Int) (body : Bytes) : World :=
  { emptyWorld with
    httpDo := fun _ =>
      .ok { StatusCode := status, Header := [("Retry-After", "7")], Body := .ok body } }

/-- A world whose configuration directory holds `credentials.json` with the text `json` and
`config.toml` with the text `toml`. -/
def diskWorld (json toml : Bytes) : World :=
  (emptyWorld.setFile "/home/u/.config/moltbook/credentials.json" (.ok json)).setFile
    "/home/u/.config/moltbook/config.toml" (.ok toml)

/-- The world `diskWorld json toml` with the two environment variables set to the given
values. -/
def envWorld (key name : String) (json toml : Bytes) : World :=
  { diskWorld json toml with
    getenv := fun k =>
      if k = "MOLTBOOK_API_KEY" then key
      else if k = "MOLTBOOK_AGENT_NAME" then name else "" }

/-- A stand-in for the JSON string literal of a text: the text between double quotes. -/
def sampleQuote (text : String) : String :=
  "\"" ++ text ++ "\""

/-- The library `sampleLib` with `json.Marshal` following the struct tags. -/
def tagLib : Lib :=
  { sampleLib with jsonMarshal := fun p => .ok (jsonMarshalByTags sampleQuote p) }

/-- The library `sampleLib` with a decoder of registration responses that knows two bodies
with a failure flag, `flagged` without a hint and `hinted` with one, and the body `plain`
without a flag. -/
def flagLib : Lib :=
  { sampleLib with
    jsonUnmarshalRegisterResponse := fun b =>
      if b = "flagged" then
        .ok { Success := false, Error := "name taken", Hint := "", Message := "", Agent := none,
              TweetTemplate := "", APIKey := "", AgentID := "", ClaimURL := "",
              VerificationCode := "" }
      else if b = "hinted" then
        .ok { Success := false, Error := "name taken", Hint := "pick another", Message := "",
              Agent := none, TweetTemplate := "", APIKey := "", AgentID := "", ClaimURL := "",
              VerificationCode := "" }
      else if b = "plain" then
        .ok { Success := true, Error := "", Hint := "", Message := "", Agent := none,
              TweetTemplate := "", APIKey := "key-flat", AgentID := "id-flat",
              ClaimURL := "claim-flat", VerificationCode := "code-flat" }
      else .error "bad response" }

/-- Response decoders that accept one text each: `post`, `comment`, `posts`, `profile`. -/
def sampleJSON : JSONLib :=
  { jsonUnmarshalGetProfileResponse := fun b =>
      if b = "profile" then
        .ok { Success := true,
              Agent := { ID := "a1", Name := "n", Description := "d", AvatarURL := "",
                         CreatedAt := "" } }
      else .error "bad profile"
    jsonUnmarshalAgent := fun b =>
      if b = "profile" then
        .ok { ID := "a1", Name := "n", Description := "d", AvatarURL := "", CreatedAt := "" }
      else .error "bad agent"
    jsonUnmarshalBrowsePostsResponse := fun b =>
      if b = "posts" then
        .ok { Posts := [{ ID := "p1", Submolt := "general", Title := "hello", Content := "c",
                          URL := "", Author := "a", Score := 2, NumComments := 1,
                          CreatedAt := "" }] }
      else .error "bad posts"
    jsonUnmarshalPost := fun b =>
      if b = "post" then
        .ok { ID := "p1", Submolt := "general", Title := "hello", Content := "c", URL := "",
              Author := "a", Score := 0, NumComments := 0, CreatedAt := "" }
      else .error "bad post"
    jsonUnmarshalComment := fun b =>
      if b = "comment" then
        .ok { ID := "c1", PostID := "p1", Content := "nice", Author := "a", Score := 0,
              CreatedAt := "" }
      else .error "bad comment" }

/-- A stand-in for package `time`: no text parses, a time is printed as its number of
nanoseconds, and hours and minutes are counted by integer division. -/
def sampleTime : TimeLib :=
  { Parse := fun _ _ => .error "cannot parse"
    Format := fun _ t => toString t
    Hours := fun d => d.tdiv Hour
    Minutes := fun d => d.tdiv Minute }

/-- A library whose TOML encoder of a state writes the two counters in decimal and whose
decoder reads back the texts of three states. -/
def counterLib : Lib :=
  { sampleLib with
    tomlEncodeState := fun st =>
      .ok (toString st.PostsCreated ++ " " ++ toString st.CommentsCreated)
    tomlUnmarshalState := fun b =>
      if b = "0 9223372036854775807" then
        .ok { LastMoltbookCheck := "", PostsCreated := 0,
              CommentsCreated := 9223372036854775807, LastPostTime := "" }
      else if b = "0 -9223372036854775808" then
        .ok { LastMoltbookCheck := "", PostsCreated := 0,
              CommentsCreated := -9223372036854775808, LastPostTime := "" }
      else if b = "0 1" then
        .ok { LastMoltbookCheck := "", PostsCreated := 0, CommentsCreated := 1,
              LastPostTime := "" }
      else .error "bad state" }

/-- The world `serverWorld status body` with the API key `key` in the environment and, when
`stateText` is given, a state file holding it. -/
def keyWorld (key : String) (status : Int) (body : Bytes) (stateText : Option Bytes) : World :=
  { serverWorld status body with
    getenv := fun k => if k = "MOLTBOOK_API_KEY" then key else ""
    readFile := fun path =>
      match stateText with
      | some text =>
        if path = "/home/u/.config/moltbook/state.toml" then .ok text
        else .error { msg := "no such file or directory", notExist := true }
      | none => .error { msg := "no such file or directory", notExist := true } }

/-- The world `keyWorld` in which every `os.WriteFile` fails. -/
def readOnlyWorld (key : String) (status : Int) (body : Bytes) : World :=
  { keyWorld key status body none with writeFileErr := fun _ => some "read-only file system" }

end MoltGo

namespace MoltGo

/-! ## Auxiliary facts -/

theorem GetCredentialsPath_of_dir {w : World} {dir : String} (h : GetConfigDir w = .ok dir) :
    GetCredentialsPath w = .ok (filepathJoin [dir, "config.toml"]) := by
  simp [GetCredentialsPath, h]

theorem GetConfigDir_setFile (w : World) (path : String) (r : Except OSError Bytes) :
    GetConfigDir (w.setFile path r) = GetConfigDir w := rfl

theorem filepathJoin_pair (dir file : String) :
    filepathJoin [dir, file] = dir ++ "/" ++ file := by
  simp [filepathJoin, String.intercalate, String.intercalate.go]

theorem json_path_ne_toml_path (dir : String) :
    filepathJoin [dir, "credentials.json"] ≠ filepathJoin [dir, "config.toml"] := by
  intro h
  have h2 := congrArg String.length h
  simp [filepathJoin_pair, String.length_append] at h2
  revert h2
  decide

theorem read_message_ne (m : String) : "failed to read credentials: " ++ m ≠ errNotConfigured := by
  intro h
  have h2 := congrArg String.data h
  simp [errNotConfigured] at h2

theorem parse_message_ne (m : String) :
    "failed to parse credentials: " ++ m ≠ errNotConfigured := by
  intro h
  have h2 := congrArg String.data h
  simp [errNotConfigured] at h2

/-- The TOML step of `LoadCredentials`, read off the file `config.toml` of the directory. -/
theorem LoadCredentials_of_json_unusable (lib : Lib) (w : World) (dir : String)
    (hkey : w.getenv "MOLTBOOK_API_KEY" = "")
    (hdir : GetConfigDir w = .ok dir)
    (hjson : ∀ data, w.readFile (filepathJoin [dir, "credentials.json"]) = .ok data →
      ∃ err, lib.jsonUnmarshalConfig data = .error err) :
    LoadCredentials lib w =
      match w.readFile (filepathJoin [dir, "config.toml"]) with
      | .error err =>
        if err.notExist then .error errNotConfigured
        else .error ("failed to read credentials: " ++ err.msg)
      | .ok data =>
        match lib.tomlUnmarshalConfig data with
        | .error err => .error ("failed to parse credentials: " ++ err)
        | .ok config => .ok config := by
  unfold LoadCredentials
  simp only [hkey, hdir, GetCredentialsPath_of_dir hdir]
  cases hr : w.readFile (filepathJoin [dir, "credentials.json"]) with
  | error e => simp
  | ok data =>
    obtain ⟨err, herr⟩ := hjson data hr
    simp [herr]

/-! ## Credential resolution -/

/-- C1: when `MOLTBOOK_API_KEY` is non-empty, `LoadCredentials` succeeds with the environment
key verbatim and with `MOLTBOOK_AGENT_NAME`, or `MoltGoAgent` when that is empty; the result
is the same for every library behaviour and for every world with the same environment,
whatever its files. -/
theorem LoadCredentials_env_precedence (lib : Lib) (w : World)
    (hkey : w.getenv "MOLTBOOK_API_KEY" ≠ "") :
    LoadCredentials lib w =
        .ok { APIKey := w.getenv "MOLTBOOK_API_KEY"
              AgentName :=
                if w.getenv "MOLTBOOK_AGENT_NAME" = "" then "MoltGoAgent"
                else w.getenv "MOLTBOOK_AGENT_NAME" }
      ∧ ∀ (lib2 : Lib) (w2 : World), w2.getenv = w.getenv →
          LoadCredentials lib2 w2 = LoadCredentials lib w := by
  refine ⟨by simp [LoadCredentials, hkey], ?_⟩
  intro lib2 w2 henv
  simp [LoadCredentials, hkey, henv]

/-- C1, at a world whose two files hold other credentials: the environment wins, with the
default agent name. -/
theorem LoadCredentials_env_precedence_witness :
    (envWorld "sk-1" "" "json" "toml").getenv "MOLTBOOK_API_KEY" ≠ ""
      ∧ LoadCredentials sampleLib (envWorld "sk-1" "" "json" "toml")
          = .ok { APIKey := "sk-1", AgentName := "MoltGoAgent" }
      ∧ LoadCredentials sampleLib (envWorld "sk-1" "" "broken" "broken")
          = LoadCredentials sampleLib (envWorld "sk-1" "" "json" "toml") :=
  ⟨by decide,
   (LoadCredentials_env_precedence sampleLib (envWorld "sk-1" "" "json" "toml") (by decide)).1,
   (LoadCredentials_env_precedence sampleLib (envWorld "sk-1" "" "json" "toml") (by decide)).2
     sampleLib (envWorld "sk-1" "" "broken" "broken") rfl⟩

/-- C2: with no API key in the environment and no usable `credentials.json`,
`LoadCredentials` fails with the not-configured error exactly when `config.toml` does not
exist; any other read failure and a TOML parse failure fail with the `failed to read` and
`failed to parse` errors, whose texts are never the not-configured text. -/
theorem LoadCredentials_toml_failures (lib : Lib) (w : World) (dir : String)
    (hkey : w.getenv "MOLTBOOK_API_KEY" = "")
    (hdir : GetConfigDir w = .ok dir)
    (hjson : ∀ data, w.readFile (filepathJoin [dir, "credentials.json"]) = .ok data →
      ∃ err, lib.jsonUnmarshalConfig data = .error err) :
    (LoadCredentials lib w = .error errNotConfigured ↔
        ∃ err, w.readFile (filepathJoin [dir, "config.toml"]) = .error err
          ∧ err.notExist = true)
      ∧ (∀ err, w.readFile (filepathJoin [dir, "config.toml"]) = .error err →
          err.notExist = false →
          LoadCredentials lib w = .error ("failed to read credentials: " ++ err.msg))
      ∧ (∀ data err, w.readFile (filepathJoin [dir, "config.toml"]) = .ok data →
          lib.tomlUnmarshalConfig data = .error err →
          LoadCredentials lib w = .error ("failed to parse credentials: " ++ err))
      ∧ (∀ m : String, "failed to read credentials: " ++ m ≠ errNotConfigured
          ∧ "failed to parse credentials: " ++ m ≠ errNotConfigured) := by
  have hload := LoadCredentials_of_json_unusable lib w dir hkey hdir hjson
  refine ⟨?_, ?_, ?_, fun m => ⟨read_message_ne m, parse_message_ne m⟩⟩
  · rw [hload]
    cases hr : w.readFile (filepathJoin [dir, "config.toml"]) with
    | error e =>
      cases hn : e.notExist with
      | true => simp [hn]
      | false => simpa [hn] using read_message_ne e.msg
    | ok data =>
      cases hp : lib.tomlUnmarshalConfig data with
      | error e => simpa [hp] using parse_message_ne e
      | ok c => simp [hp]
  · intro err hr hn
    rw [hload]
    simp [hr, hn]
  · intro data err hr hp
    rw [hload]
    simp [hr, hp]

/-- C2, at the world with no environment variable and no file: not configured. -/
theorem LoadCredentials_toml_failures_witness :
    emptyWorld.getenv "MOLTBOOK_API_KEY" = ""
      ∧ GetConfigDir emptyWorld = .ok "/home/u/.config/moltbook"
      ∧ LoadCredentials sampleLib emptyWorld = .error errNotConfigured :=
  ⟨by decide, by decide,
   (LoadCredentials_toml_failures sampleLib emptyWorld "/home/u/.config/moltbook" (by decide)
      (by decide) (fun data h => by simp [emptyWorld] at h)).1.2
     ⟨{ msg := "no such file or directory", notExist := true }, by decide, rfl⟩⟩

/-- C3: with the API key variable empty, a `credentials.json` that reads and parses is
returned as decoded, whatever `config.toml` is; a `credentials.json` that cannot be read or
parsed raises no error of its own: the result is the one of the TOML step, the same as in
the world where reading `credentials.json` fails in any way (for instance because it does not
exist). -/
theorem LoadCredentials_json_step (lib : Lib) (w : World) (dir : String)
    (hkey : w.getenv "MOLTBOOK_API_KEY" = "")
    (hdir : GetConfigDir w = .ok dir) :
    (∀ data config, w.readFile (filepathJoin [dir, "credentials.json"]) = .ok data →
        lib.jsonUnmarshalConfig data = .ok config →
        LoadCredentials lib w = .ok config
          ∧ ∀ r, LoadCredentials lib (w.setFile (filepathJoin [dir, "config.toml"]) r)
              = .ok config)
      ∧ ((∀ data, w.readFile (filepathJoin [dir, "credentials.json"]) = .ok data →
            ∃ err, lib.jsonUnmarshalConfig data = .error err) →
          (∀ e : OSError, LoadCredentials lib w
              = LoadCredentials lib (w.setFile (filepathJoin [dir, "credentials.json"])
                  (.error e)))
            ∧ LoadCredentials lib w =
                match w.readFile (filepathJoin [dir, "config.toml"]) with
                | .error err =>
                  if err.notExist then .error errNotConfigured
                  else .error ("failed to read credentials: " ++ err.msg)
                | .ok data =>
                  match lib.tomlUnmarshalConfig data with
                  | .error err => .error ("failed to parse credentials: " ++ err)
                  | .ok config => .ok config) := by
  constructor
  · intro data config hr hp
    constructor
    · unfold LoadCredentials
      simp [hkey, hdir, hr, hp]
    · intro r
      have hr2 : (w.setFile (filepathJoin [dir, "config.toml"]) r).readFile
          (filepathJoin [dir, "credentials.json"]) = .ok data := by
        simp [World.setFile, json_path_ne_toml_path dir, hr]
      have hkey2 : (w.setFile (filepathJoin [dir, "config.toml"]) r).getenv
          "MOLTBOOK_API_KEY" = "" := hkey
      unfold LoadCredentials
      simp [hkey2, GetConfigDir_setFile, hdir, hr2, hp]
  · intro hjson
    have hload := LoadCredentials_of_json_unusable lib w dir hkey hdir hjson
    refine ⟨?_, hload⟩
    intro e
    have hload2 := LoadCredentials_of_json_unusable lib
      (w.setFile (filepathJoin [dir, "credentials.json"]) (.error e)) dir hkey
      (by rw [GetConfigDir_setFile]; exact hdir)
      (by intro data h; simp [World.setFile] at h)
    rw [hload, hload2]
    simp [World.setFile, (json_path_ne_toml_path dir).symm]

/-- C3, at worlds with both files: a good `credentials.json` wins over `config.toml`, and a
malformed one gives what the world without it gives, the record of `config.toml`. -/
theorem LoadCredentials_json_step_witness :
    (diskWorld "json" "toml").getenv "MOLTBOOK_API_KEY" = ""
      ∧ GetConfigDir (diskWorld "broken" "toml") = .ok "/home/u/.config/moltbook"
      ∧ LoadCredentials sampleLib (diskWorld "json" "toml")
          = .ok { APIKey := "jk", AgentName := "jn" }
      ∧ LoadCredentials sampleLib (diskWorld "broken" "toml")
          = LoadCredentials sampleLib
              ((diskWorld "broken" "toml").setFile
                (filepathJoin ["/home/u/.config/moltbook", "credentials.json"])
                (.error { msg := "no such file or directory", notExist := true })) :=
  ⟨by decide, by decide,
   ((LoadCredentials_json_step sampleLib (diskWorld "json" "toml") "/home/u/.config/moltbook"
      (by decide) (by decide)).1 "json" { APIKey := "jk", AgentName := "jn" }
      (by decide) (by decide)).1,
   ((LoadCredentials_json_step sampleLib (diskWorld "broken" "toml") "/home/u/.config/moltbook"
      (by decide) (by decide)).2
      (fun data h => by
        have hd : data = "broken" := by
          have h2 : (Except.ok "broken" : Except OSError Bytes) = .ok data := h
          injection h2 with h3
          exact h3.symm
        subst hd
        exact ⟨"bad json", by decide⟩)).1
      { msg := "no such file or directory", notExist := true }⟩

/-! ## Usage state -/

/-- C4: when the state file does not exist, `LoadState` succeeds with the zero-value
state. -/
theorem LoadState_missing_file (lib : Lib) (w : World) (path : String) (err : OSError)
    (hpath : GetStatePath w = .ok path)
    (hread : w.readFile path = .error err)
    (hmissing : err.notExist = true) :
    LoadState lib w
      = .ok { LastMoltbookCheck := "", PostsCreated := 0, CommentsCreated := 0,
              LastPostTime := "" } := by
  simp [LoadState, hpath, hread, hmissing, State.zero]

/-- C4, at the world with no file. -/
theorem LoadState_missing_file_witness :
    GetStatePath emptyWorld = .ok "/home/u/.config/moltbook/state.toml"
      ∧ emptyWorld.readFile "/home/u/.config/moltbook/state.toml"
          = .error { msg := "no such file or directory", notExist := true }
      ∧ LoadState sampleLib emptyWorld
          = .ok { LastMoltbookCheck := "", PostsCreated := 0, CommentsCreated := 0,
                  LastPostTime := "" } :=
  ⟨by decide, by decide,
   LoadState_missing_file sampleLib emptyWorld "/home/u/.config/moltbook/state.toml"
     { msg := "no such file or directory", notExist := true } (by decide) (by decide) rfl⟩

/-- C5: after `SaveState s` succeeds, `LoadState` in the resulting world succeeds and
returns `s`, for every state that the TOML library decodes back from its own encoding. -/
theorem SaveState_LoadState_roundtrip (lib : Lib) (s : State) (w w2 : World)
    (hcodec : ∀ buf, lib.tomlEncodeState s = .ok buf → lib.tomlUnmarshalState buf = .ok s)
    (hsave : SaveState lib s w = (.ok (), w2)) :
    LoadState lib w2 = .ok s := by
  unfold SaveState at hsave
  cases hd : GetConfigDir w with
  | error e => simp [hd] at hsave
  | ok dir =>
    have hp : GetStatePath w = .ok (filepathJoin [dir, "state.toml"]) := by
      simp [GetStatePath, hd]
    simp only [hd, hp] at hsave
    cases hm : w.mkdirAllErr dir with
    | some e => simp [hm] at hsave
    | none =>
      cases he : lib.tomlEncodeState s with
      | error e => simp [hm, he] at hsave
      | ok buf =>
        cases hw : w.writeFileErr (filepathJoin [dir, "state.toml"]) with
        | some e => simp [hm, he, World.writeFile, hw] at hsave
        | none =>
          simp only [hm, he, World.writeFile, hw, Prod.mk.injEq, true_and] at hsave
          subst hsave
          have hp2 : GetStatePath (w.setFile (filepathJoin [dir, "state.toml"]) (.ok buf))
              = .ok (filepathJoin [dir, "state.toml"]) := hp
          unfold LoadState
          rw [hp2]
          simp [World.setFile, hcodec buf he]

/-- C5, at the world with no file and a state with both counters and a timestamp set. -/
theorem SaveState_LoadState_roundtrip_witness :
    (SaveState sampleLib
        { LastMoltbookCheck := "", PostsCreated := 3, CommentsCreated := 1,
          LastPostTime := "2026-01-02T03:04:05Z" } emptyWorld).1 = .ok ()
      ∧ LoadState sampleLib
          (SaveState sampleLib
            { LastMoltbookCheck := "", PostsCreated := 3, CommentsCreated := 1,
              LastPostTime := "2026-01-02T03:04:05Z" } emptyWorld).2
        = .ok { LastMoltbookCheck := "", PostsCreated := 3, CommentsCreated := 1,
                LastPostTime := "2026-01-02T03:04:05Z" } :=
  ⟨by decide,
   SaveState_LoadState_roundtrip sampleLib _ emptyWorld _
     (fun buf h => by
       have hb : buf = "state" := by
         have h2 : (Except.ok "state" : Except String Bytes) = .ok buf := h
         injection h2 with h3
         exact h3.symm
       subst hb
       decide)
     rfl⟩

/-! ## Request execution -/

/-- The two courses of `doRequest`: either the payload is not marshalled or the request is
rejected by `http.NewRequest`, and then nothing is sent; or exactly one request is sent, with
the method, URL and headers below, and the result is read off the answer to it. -/
theorem doRequest_outcome (lib : Lib) (c : Client) (method endpoint : String)
    (body : Option Payload) (w : World) :
    ((doRequest lib c method endpoint body w).2.sent = w.sent
        ∧ (∃ err, (doRequest lib c method endpoint body w).1 = .error err)
        ∧ ((∃ b err, body = some b ∧ lib.jsonMarshal b = .error err)
            ∨ ∃ err, lib.newRequestErr method (BaseURL ++ endpoint) = some err))
      ∨ ∃ req : Request,
          (doRequest lib c method endpoint body w).2.sent = w.sent ++ [req]
            ∧ req.Method = method ∧ req.URL = BaseURL ++ endpoint
            ∧ req.Header =
                (if c.apiKey ≠ "" then
                  [("Authorization", "Bearer " ++ c.apiKey), ("Content-Type", "application/json")]
                else [("Content-Type", "application/json")])
            ∧ (doRequest lib c method endpoint body w).1 =
                match w.httpDo req with
                | .error err => .error ("failed to make request: " ++ err)
                | .ok resp =>
                  match resp.Body with
                  | .error err => .error ("failed to read response: " ++ err)
                  | .ok respBody =>
                    if resp.StatusCode = 429 then
                      .error ("rate limited (retry after " ++ resp.Header.Get "Retry-After"
                        ++ " seconds)")
                    else if resp.StatusCode < 200 ∨ resp.StatusCode ≥ 300 then
                      .error ("API error (status " ++ toString resp.StatusCode ++ "): "
                        ++ respBody)
                    else .ok respBody := by
  unfold doRequest
  generalize hm : (match body with
    | none => (Except.ok none : Except String (Option Bytes))
    | some b =>
      match lib.jsonMarshal b with
      | .error err => .error ("failed to marshal request: " ++ err)
      | .ok jsonData => .ok (some jsonData)) = marshalled
  cases marshalled with
  | error e =>
    left
    refine ⟨by simp, by simp, Or.inl ?_⟩
    cases body with
    | none => simp at hm
    | some b =>
      cases hj : lib.jsonMarshal b with
      | error err => exact ⟨b, err, rfl, hj⟩
      | ok j => simp [hj] at hm
  | ok reqBody =>
    cases hn : lib.newRequestErr method (BaseURL ++ endpoint) with
    | some e => left; simp [NewRequest, hn]
    | none =>
      right
      refine ⟨{ Method := method, URL := BaseURL ++ endpoint, Body := reqBody,
                Header := (if c.apiKey ≠ "" then
                  [("Authorization", "Bearer " ++ c.apiKey),
                   ("Content-Type", "application/json")]
                  else [("Content-Type", "application/json")]) }, ?_⟩
      by_cases hk : c.apiKey = ""
      · simp only [NewRequest, hn, hk, World.Do, Header.Set]
        simp only [ne_eq, not_true_eq_false, ite_false, List.filter_nil, true_and]
        cases hdo : w.httpDo
            { Method := method, URL := BaseURL ++ endpoint, Body := reqBody,
              Header := [("Content-Type", "application/json")] } with
        | error e => simp
        | ok resp =>
          cases hbody : resp.Body with
          | error e => simp [hbody]
          | ok respBody =>
            simp only [hbody]
            split_ifs <;> simp
      · simp only [NewRequest, hn, World.Do, Header.Set]
        simp [hk]
        cases hdo : w.httpDo
            { Method := method, URL := BaseURL ++ endpoint, Body := reqBody,
              Header := [("Authorization", "Bearer " ++ c.apiKey),
                         ("Content-Type", "application/json")] } with
        | error e => simp
        | ok resp =>
          cases hbody : resp.Body with
          | error e => simp [hbody]
          | ok respBody =>
            simp only [hbody]
            split_ifs <;> simp

theorem append_singleton_inj {α : Type} {l : List α} {a b : α} (h : l ++ [a] = l ++ [b]) :
    a = b := by
  simpa using h

theorem ne_append_singleton {α : Type} (l : List α) (a : α) : l ≠ l ++ [a] := by
  intro h
  have h2 := congrArg List.length h
  simp at h2

/-- The result of `doRequest` when the request `req` was sent. -/
theorem doRequest_result_of_sent (lib : Lib) (c : Client) (method endpoint : String)
    (body : Option Payload) (w : World) (req : Request)
    (hsent : (doRequest lib c method endpoint body w).2.sent = w.sent ++ [req]) :
    req.Header =
        (if c.apiKey ≠ "" then
          [("Authorization", "Bearer " ++ c.apiKey), ("Content-Type", "application/json")]
        else [("Content-Type", "application/json")])
      ∧ (doRequest lib c method endpoint body w).1 =
          match w.httpDo req with
          | .error err => .error ("failed to make request: " ++ err)
          | .ok resp =>
            match resp.Body with
            | .error err => .error ("failed to read response: " ++ err)
            | .ok respBody =>
              if resp.StatusCode = 429 then
                .error ("rate limited (retry after " ++ resp.Header.Get "Retry-After"
                  ++ " seconds)")
              else if resp.StatusCode < 200 ∨ resp.StatusCode ≥ 300 then
                .error ("API error (status " ++ toString resp.StatusCode ++ "): " ++ respBody)
              else .ok respBody := by
  rcases doRequest_outcome lib c method endpoint body w with ⟨h1, _⟩ | ⟨r, h1, _, _, h4, h5⟩
  · rw [h1] at hsent
    exact absurd hsent (ne_append_singleton _ _)
  · rw [h1] at hsent
    have hr : r = req := append_singleton_inj hsent
    subst hr
    exact ⟨h4, h5⟩

/-- C6: when the request sent by `doRequest` is answered with status 429 and a readable body,
the result is the rate-limited error carrying the value of the `Retry-After` header, whatever
the body is; being an error, it carries no response bytes. -/
theorem doRequest_rate_limited (lib : Lib) (c : Client) (method endpoint : String)
    (body : Option Payload) (w : World) (req : Request) (resp : Response) (respBody : Bytes)
    (hsent : (doRequest lib c method endpoint body w).2.sent = w.sent ++ [req])
    (hresp : w.httpDo req = .ok resp)
    (hstatus : resp.StatusCode = 429)
    (hbody : resp.Body = .ok respBody) :
    (doRequest lib c method endpoint body w).1
      = .error ("rate limited (retry after " ++ resp.Header.Get "Retry-After" ++ " seconds)") := by
  rw [(doRequest_result_of_sent lib c method endpoint body w req hsent).2, hresp]
  simp [hbody, hstatus]

/-- C6, with the header `Retry-After: 7`: once with an empty body, once with a JSON body that
declares success. -/
theorem doRequest_rate_limited_witness :
    (doRequest sampleLib (NewClient "k") "GET" "/agents/me" none (serverWorld 429 "")).2.sent
        = (serverWorld 429 "").sent
            ++ [{ Method := "GET", URL := "https://www.moltbook.com/api/v1/agents/me",
                  Body := none,
                  Header := [("Authorization", "Bearer k"),
                             ("Content-Type", "application/json")] }]
      ∧ (doRequest sampleLib (NewClient "k") "GET" "/agents/me" none (serverWorld 429 "")).1
        = .error "rate limited (retry after 7 seconds)"
      ∧ (doRequest sampleLib (NewClient "k") "GET" "/agents/me" none
          (serverWorld 429 "\x7b\"success\":true\x7d")).1
        = .error "rate limited (retry after 7 seconds)" :=
  ⟨by decide,
   doRequest_rate_limited sampleLib (NewClient "k") "GET" "/agents/me" none (serverWorld 429 "")
     { Method := "GET", URL := "https://www.moltbook.com/api/v1/agents/me", Body := none,
       Header := [("Authorization", "Bearer k"), ("Content-Type", "application/json")] }
     { StatusCode := 429, Header := [("Retry-After", "7")], Body := .ok "" } ""
     (by decide) rfl rfl rfl,
   doRequest_rate_limited sampleLib (NewClient "k") "GET" "/agents/me" none
     (serverWorld 429 "\x7b\"success\":true\x7d")
     { Method := "GET", URL := "https://www.moltbook.com/api/v1/agents/me", Body := none,
       Header := [("Authorization", "Bearer k"), ("Content-Type", "application/json")] }
     { StatusCode := 429, Header := [("Retry-After", "7")],
       Body := .ok "\x7b\"success\":true\x7d" } "\x7b\"success\":true\x7d"
     (by decide) rfl rfl rfl⟩

/-- C7: when the request sent by `doRequest` is answered with a status other than 429 and a
readable body, `doRequest` succeeds exactly when `200 ≤ status < 300`, and then returns the
body unchanged; otherwise it fails with the API error carrying the status code and the body,
whatever the body is. -/
theorem doRequest_status_classes (lib : Lib) (c : Client) (method endpoint : String)
    (body : Option Payload) (w : World) (req : Request) (resp : Response) (respBody : Bytes)
    (hsent : (doRequest lib c method endpoint body w).2.sent = w.sent ++ [req])
    (hresp : w.httpDo req = .ok resp)
    (hstatus : resp.StatusCode ≠ 429)
    (hbody : resp.Body = .ok respBody) :
    ((∃ b, (doRequest lib c method endpoint body w).1 = .ok b)
        ↔ 200 ≤ resp.StatusCode ∧ resp.StatusCode < 300)
      ∧ (200 ≤ resp.StatusCode ∧ resp.StatusCode < 300 →
          (doRequest lib c method endpoint body w).1 = .ok respBody)
      ∧ (¬(200 ≤ resp.StatusCode ∧ resp.StatusCode < 300) →
          (doRequest lib c method endpoint body w).1
            = .error ("API error (status " ++ toString resp.StatusCode ++ "): " ++ respBody)) := by
  rw [(doRequest_result_of_sent lib c method endpoint body w req hsent).2, hresp]
  simp only [hbody, hstatus, ite_false]
  by_cases hr : resp.StatusCode < 200 ∨ resp.StatusCode ≥ 300
  · have hn : ¬(200 ≤ resp.StatusCode ∧ resp.StatusCode < 300) := by omega
    simp [hr, hn]
  · have hy : 200 ≤ resp.StatusCode ∧ resp.StatusCode < 300 := by omega
    simp [hr, hy]

/-- C7, with status 201, where the body comes back unchanged, and with status 500 and a JSON
body that declares success, where the API error carries status and body. -/
theorem doRequest_status_classes_witness :
    (doRequest sampleLib (NewClient "k") "POST" "/posts" none (serverWorld 201 "post")).2.sent
        = (serverWorld 201 "post").sent
            ++ [{ Method := "POST", URL := "https://www.moltbook.com/api/v1/posts",
                  Body := none,
                  Header := [("Authorization", "Bearer k"),
                             ("Content-Type", "application/json")] }]
      ∧ (doRequest sampleLib (NewClient "k") "POST" "/posts" none (serverWorld 201 "post")).1
        = .ok "post"
      ∧ (doRequest sampleLib (NewClient "k") "POST" "/posts" none
          (serverWorld 500 "\x7b\"success\":true\x7d")).1
        = .error "API error (status 500): \x7b\"success\":true\x7d" :=
  ⟨by decide,
   (doRequest_status_classes sampleLib (NewClient "k") "POST" "/posts" none
     (serverWorld 201 "post")
     { Method := "POST", URL := "https://www.moltbook.com/api/v1/posts", Body := none,
       Header := [("Authorization", "Bearer k"), ("Content-Type", "application/json")] }
     { StatusCode := 201, Header := [("Retry-After", "7")], Body := .ok "post" } "post"
     (by decide) rfl (by decide) rfl).2.1 (by decide),
   (doRequest_status_classes sampleLib (NewClient "k") "POST" "/posts" none
     (serverWorld 500 "\x7b\"success\":true\x7d")
     { Method := "POST", URL := "https://www.moltbook.com/api/v1/posts", Body := none,
       Header := [("Authorization", "Bearer k"), ("Content-Type", "application/json")] }
     { StatusCode := 500, Header := [("Retry-After", "7")],
       Body := .ok "\x7b\"success\":true\x7d" } "\x7b\"success\":true\x7d"
     (by decide) rfl (by decide) rfl).2.2 (by decide)⟩

/-- C8: every request that `doRequest` sends has `Content-Type: application/json`, has an
`Authorization` header exactly when the API key of the client is non-empty, and then the
value of that header is `Bearer ` followed by the key; a request is sent whenever the payload
is marshalled and `http.NewRequest` accepts method and URL, and at most one is sent. -/
theorem doRequest_headers (lib : Lib) (c : Client) (method endpoint : String)
    (body : Option Payload) (w : World) :
    (∀ req, (doRequest lib c method endpoint body w).2.sent = w.sent ++ [req] →
        req.Header.Get "Content-Type" = "application/json"
          ∧ (req.Header.Has "Authorization" = true ↔ c.apiKey ≠ "")
          ∧ (c.apiKey ≠ "" → req.Header.Get "Authorization" = "Bearer " ++ c.apiKey))
      ∧ ((∀ b, body = some b → ∃ jsonData, lib.jsonMarshal b = .ok jsonData) →
          lib.newRequestErr method (BaseURL ++ endpoint) = none →
          ∃ req, (doRequest lib c method endpoint body w).2.sent = w.sent ++ [req]
            ∧ req.Method = method ∧ req.URL = BaseURL ++ endpoint)
      ∧ ((doRequest lib c method endpoint body w).2.sent = w.sent
          ∨ ∃ req, (doRequest lib c method endpoint body w).2.sent = w.sent ++ [req]) := by
  refine ⟨?_, ?_, ?_⟩
  · intro req hsent
    have hh := (doRequest_result_of_sent lib c method endpoint body w req hsent).1
    by_cases hk : c.apiKey = ""
    · simp [hh, hk, Header.Get, Header.Has]
    · simp [hh, hk, Header.Get, Header.Has]
  · intro hmarshal hnew
    rcases doRequest_outcome lib c method endpoint body w with
      ⟨_, _, ⟨b, err, hb, herr⟩ | ⟨err, herr⟩⟩ | ⟨r, h1, h2, h3, _, _⟩
    · obtain ⟨j, hj⟩ := hmarshal b hb
      rw [hj] at herr
      cases herr
    · rw [hnew] at herr
      cases herr
    · exact ⟨r, h1, h2, h3⟩
  · rcases doRequest_outcome lib c method endpoint body w with ⟨h1, _⟩ | ⟨r, h1, _⟩
    · exact Or.inl h1
    · exact Or.inr ⟨r, h1⟩

/-- C8, for a client with a key and for a client without one. -/
theorem doRequest_headers_witness :
    (doRequest sampleLib (NewClient "k") "GET" "/agents/me" none emptyWorld).2.sent
        = [{ Method := "GET", URL := "https://www.moltbook.com/api/v1/agents/me", Body := none,
             Header := [("Authorization", "Bearer k"), ("Content-Type", "application/json")] }]
      ∧ (doRequest sampleLib (NewClient "") "GET" "/agents/me" none emptyWorld).2.sent
        = [{ Method := "GET", URL := "https://www.moltbook.com/api/v1/agents/me", Body := none,
             Header := [("Content-Type", "application/json")] }]
      ∧ (Header.Has [("Content-Type", "application/json")] "Authorization" = true
          ↔ (NewClient "").apiKey ≠ "") :=
  ⟨by decide, by decide,
   ((doRequest_headers sampleLib (NewClient "") "GET" "/agents/me" none emptyWorld).1
     { Method := "GET", URL := "https://www.moltbook.com/api/v1/agents/me", Body := none,
       Header := [("Content-Type", "application/json")] } (by decide)).2.1⟩

/-! ## Registration -/

/-- The four field-by-field copies at the end of `Register` amount to one record update. -/
theorem Register_copies (raw : RegisterResponse) (agent : AgentRegistration) :
    (let result := raw
     let result :=
       if result.APIKey = "" then { result with APIKey := agent.APIKey } else result
     let result :=
       if result.AgentID = "" then { result with AgentID := agent.ID } else result
     let result :=
       if result.ClaimURL = "" then { result with ClaimURL := agent.ClaimURL }
       else result
     let result :=
       if result.VerificationCode = "" then
         { result with VerificationCode := agent.VerificationCode }
       else result
     result)
      = { raw with
          APIKey := if raw.APIKey = "" then agent.APIKey else raw.APIKey
          AgentID := if raw.AgentID = "" then agent.ID else raw.AgentID
          ClaimURL := if raw.ClaimURL = "" then agent.ClaimURL else raw.ClaimURL
          VerificationCode :=
            if raw.VerificationCode = "" then agent.VerificationCode
            else raw.VerificationCode } := by
  obtain ⟨s, e, h, m, a, t, k, i, c, v⟩ := raw
  by_cases h1 : k = "" <;> by_cases h2 : i = "" <;> by_cases h3 : c = "" <;>
    by_cases h4 : v = "" <;> simp [h1, h2, h3, h4]

/-- The two courses of `Register`: either the payload is not marshalled or the request is
rejected by `http.NewRequest`, and then nothing is sent; or exactly one request is sent, and
the result is read off the answer to it. -/
theorem Register_outcome (lib : Lib) (name description : String) (w : World) :
    ((Register lib name description w).2.sent = w.sent
        ∧ ∃ err, (Register lib name description w).1 = .error err)
      ∨ ∃ req : Request,
          (Register lib name description w).2.sent = w.sent ++ [req]
            ∧ (Register lib name description w).1 =
                match w.httpDo req with
                | .error err => .error ("failed to make request: " ++ err)
                | .ok resp =>
                  match resp.Body with
                  | .error err => .error ("failed to read response: " ++ err)
                  | .ok body =>
                    match lib.jsonUnmarshalRegisterResponse body with
                    | .error err =>
                      if resp.StatusCode ≠ 200 ∧ resp.StatusCode ≠ 201 then
                        .error ("registration failed (status " ++ toString resp.StatusCode
                          ++ "): " ++ body)
                      else .error ("failed to parse response: " ++ err)
                    | .ok raw =>
                      if raw.Success = false ∧ raw.Error ≠ "" then
                        .error ("registration failed: "
                          ++ (if raw.Hint ≠ "" then raw.Error ++ " - " ++ raw.Hint
                              else raw.Error))
                      else if resp.StatusCode ≠ 200 ∧ resp.StatusCode ≠ 201 then
                        .error ("registration failed (status " ++ toString resp.StatusCode
                          ++ "): " ++ body)
                      else
                        match raw.Agent with
                        | some agent =>
                          .ok { raw with
                                APIKey := if raw.APIKey = "" then agent.APIKey else raw.APIKey
                                AgentID := if raw.AgentID = "" then agent.ID else raw.AgentID
                                ClaimURL :=
                                  if raw.ClaimURL = "" then agent.ClaimURL else raw.ClaimURL
                                VerificationCode :=
                                  if raw.VerificationCode = "" then agent.VerificationCode
                                  else raw.VerificationCode }
                        | none => .ok raw := by
  unfold Register
  cases hm : lib.jsonMarshal (.register { Name := name, Description := description }) with
  | error e => left; simp [hm]
  | ok jsonData =>
    cases hn : lib.newRequestErr "POST" (BaseURL ++ "/agents/register") with
    | some e => left; simp [hm, NewRequest, hn]
    | none =>
      right
      refine ⟨{ Method := "POST", URL := BaseURL ++ "/agents/register", Body := some jsonData,
                Header := [("Content-Type", "application/json")] }, ?_⟩
      simp only [hm, NewRequest, hn, World.Do, Header.Set, List.filter_nil]
      cases hdo : w.httpDo
          { Method := "POST", URL := BaseURL ++ "/agents/register", Body := some jsonData,
            Header := [("Content-Type", "application/json")] } with
      | error e => simp
      | ok resp =>
        cases hbody : resp.Body with
        | error e => simp [hbody]
        | ok body =>
          cases hu : lib.jsonUnmarshalRegisterResponse body with
          | error e =>
            simp only [hbody, hu]
            split_ifs <;> simp
          | ok raw =>
            simp only [hbody, hu]
            obtain ⟨s, e, h, m, a, t, k, i, c, v⟩ := raw
            cases a with
            | none => split_ifs <;> simp
            | some agent =>
              by_cases hflag : s = false ∧ e ≠ ""
              · rw [if_pos hflag, if_pos hflag]
                exact ⟨rfl, rfl⟩
              · rw [if_neg hflag, if_neg hflag]
                by_cases hstatus : resp.StatusCode ≠ 200 ∧ resp.StatusCode ≠ 201
                · rw [if_pos hstatus, if_pos hstatus]
                  exact ⟨rfl, rfl⟩
                · rw [if_neg hstatus, if_neg hstatus]
                  exact ⟨rfl, congrArg Except.ok
                    (Register_copies (RegisterResponse.mk s e h m (some agent) t k i c v) agent)⟩

/-- C9: when the request sent by `Register` is answered with status 200 or 201 and a body that
decodes to `raw` without a failure flag, `Register` succeeds, and each of `APIKey`,
`AgentID`, `ClaimURL` and `VerificationCode` of its result is the top-level value of `raw`
when that is non-empty, otherwise the value of the nested agent object when there is one,
otherwise empty. -/
theorem Register_normalises (lib : Lib) (name description : String) (w : World)
    (req : Request) (resp : Response) (body : Bytes) (raw : RegisterResponse)
    (hsent : (Register lib name description w).2.sent = w.sent ++ [req])
    (hresp : w.httpDo req = .ok resp)
    (hbody : resp.Body = .ok body)
    (hdecode : lib.jsonUnmarshalRegisterResponse body = .ok raw)
    (hflag : ¬(raw.Success = false ∧ raw.Error ≠ ""))
    (hstatus : resp.StatusCode = 200 ∨ resp.StatusCode = 201) :
    ∃ result, (Register lib name description w).1 = .ok result
      ∧ result.APIKey =
          (if raw.APIKey ≠ "" then raw.APIKey
           else match raw.Agent with
             | some agent => agent.APIKey
             | none => "")
      ∧ result.AgentID =
          (if raw.AgentID ≠ "" then raw.AgentID
           else match raw.Agent with
             | some agent => agent.ID
             | none => "")
      ∧ result.ClaimURL =
          (if raw.ClaimURL ≠ "" then raw.ClaimURL
           else match raw.Agent with
             | some agent => agent.ClaimURL
             | none => "")
      ∧ result.VerificationCode =
          (if raw.VerificationCode ≠ "" then raw.VerificationCode
           else match raw.Agent with
             | some agent => agent.VerificationCode
             | none => "") := by
  rcases Register_outcome lib name description w with ⟨h1, _⟩ | ⟨r, h1, h2⟩
  · rw [h1] at hsent
    exact absurd hsent (ne_append_singleton _ _)
  · rw [h1] at hsent
    have hr : r = req := append_singleton_inj hsent
    subst hr
    have hst : ¬(resp.StatusCode ≠ 200 ∧ resp.StatusCode ≠ 201) := by omega
    rw [h2, hresp]
    simp only [hbody, hdecode, if_neg hflag, if_neg hst]
    obtain ⟨s, e, h, m, a, t, k, i, c, v⟩ := raw
    cases a with
    | none =>
      refine ⟨_, rfl, ?_, ?_, ?_, ?_⟩
      · by_cases hk : k = "" <;> simp [hk]
      · by_cases hk : i = "" <;> simp [hk]
      · by_cases hk : c = "" <;> simp [hk]
      · by_cases hk : v = "" <;> simp [hk]
    | some agent =>
      refine ⟨_, rfl, ?_, ?_, ?_, ?_⟩
      · by_cases hk : k = "" <;> simp [hk]
      · by_cases hk : i = "" <;> simp [hk]
      · by_cases hk : c = "" <;> simp [hk]
      · by_cases hk : v = "" <;> simp [hk]

/-- C9, for a response with status 200 whose four fields are all nested under `agent`. -/
theorem Register_normalises_witness :
    (Register sampleLib "a" "d" (serverWorld 200 "nested")).2.sent
        = (serverWorld 200 "nested").sent
            ++ [{ Method := "POST",
                  URL := "https://www.moltbook.com/api/v1/agents/register",
                  Body := some "payload",
                  Header := [("Content-Type", "application/json")] }]
      ∧ ∃ result, (Register sampleLib "a" "d" (serverWorld 200 "nested")).1 = .ok result
          ∧ result.APIKey = "key-n" ∧ result.AgentID = "id-n"
          ∧ result.ClaimURL = "claim-n" ∧ result.VerificationCode = "code-n" :=
  ⟨by decide,
   Register_normalises sampleLib "a" "d" (serverWorld 200 "nested")
     { Method := "POST", URL := "https://www.moltbook.com/api/v1/agents/register",
       Body := some "payload", Header := [("Content-Type", "application/json")] }
     { StatusCode := 200, Header := [("Retry-After", "7")], Body := .ok "nested" } "nested"
     { Success := true, Error := "", Hint := "", Message := "",
       Agent := some { ID := "id-n", Name := "n", APIKey := "key-n", ClaimURL := "claim-n",
                       VerificationCode := "code-n", ProfileURL := "", CreatedAt := "" },
       TweetTemplate := "", APIKey := "", AgentID := "", ClaimURL := "",
       VerificationCode := "" }
     (by decide) rfl rfl (by decide) (by decide) (by decide)⟩

/-- C10: whenever `Register` returns a response whose API key is empty, the register command
`runRegister` fails with the empty-API-key error; so when `runRegister` succeeds, `Register`
returned a response with a non-empty API key. -/
theorem runRegister_empty_key_fails (lib : Lib) (agentName agentDescription : String)
    (useEnvFile exportFormat : Bool) (w : World) :
    (∀ result w1,
        Register lib agentName agentDescription
            (w.print ("Registering agent '" ++ agentName ++ "'...\n")) = (.ok result, w1) →
        result.APIKey = "" →
        (runRegister lib agentName agentDescription useEnvFile exportFormat w).1
          = .error "registration returned empty API key")
      ∧ ((runRegister lib agentName agentDescription useEnvFile exportFormat w).1 = .ok () →
          ∃ result w1,
            Register lib agentName agentDescription
                (w.print ("Registering agent '" ++ agentName ++ "'...\n")) = (.ok result, w1)
              ∧ result.APIKey ≠ "") := by
  constructor
  · intro result w1 hreg hempty
    unfold runRegister
    simp [hreg, hempty]
  · intro hok
    unfold runRegister at hok
    rcases hreg : Register lib agentName agentDescription
        (w.print ("Registering agent '" ++ agentName ++ "'...\n")) with ⟨r, w1⟩
    cases r with
    | error e => simp [hreg] at hok
    | ok result =>
      refine ⟨result, w1, rfl, ?_⟩
      intro hempty
      simp [hreg, hempty] at hok

/-- C10, for a response with status 200 and no failure flag whose API key is empty: `Register`
returns it and `runRegister` fails. -/
theorem runRegister_empty_key_fails_witness :
    (∃ result w1,
        Register sampleLib "a" "d"
            ((serverWorld 200 "blank").print ("Registering agent '" ++ "a" ++ "'...\n"))
          = (.ok result, w1) ∧ result.APIKey = "")
      ∧ (runRegister sampleLib "a" "d" false false (serverWorld 200 "blank")).1
          = .error "registration returned empty API key" :=
  ⟨⟨_, _, rfl, rfl⟩,
   (runRegister_empty_key_fails sampleLib "a" "d" false false (serverWorld 200 "blank")).1
     _ _ rfl rfl⟩

/-- The result of `Register` when the request `req` was sent and answered with a readable
body that decodes to `raw`. -/
theorem Register_result_of_decoded (lib : Lib) (name description : String) (w : World)
    (req : Request) (resp : Response) (body : Bytes) (raw : RegisterResponse)
    (hsent : (Register lib name description w).2.sent = w.sent ++ [req])
    (hresp : w.httpDo req = .ok resp)
    (hbody : resp.Body = .ok body)
    (hdecode : lib.jsonUnmarshalRegisterResponse body = .ok raw) :
    (Register lib name description w).1 =
      if raw.Success = false ∧ raw.Error ≠ "" then
        .error ("registration failed: "
          ++ (if raw.Hint ≠ "" then raw.Error ++ " - " ++ raw.Hint else raw.Error))
      else if resp.StatusCode ≠ 200 ∧ resp.StatusCode ≠ 201 then
        .error ("registration failed (status " ++ toString resp.StatusCode ++ "): " ++ body)
      else
        match raw.Agent with
        | some agent =>
          .ok { raw with
                APIKey := if raw.APIKey = "" then agent.APIKey else raw.APIKey
                AgentID := if raw.AgentID = "" then agent.ID else raw.AgentID
                ClaimURL := if raw.ClaimURL = "" then agent.ClaimURL else raw.ClaimURL
                VerificationCode :=
                  if raw.VerificationCode = "" then agent.VerificationCode
                  else raw.VerificationCode }
        | none => .ok raw := by
  rcases Register_outcome lib name description w with ⟨h1, _⟩ | ⟨r, h1, h2⟩
  · rw [h1] at hsent
    exact absurd hsent (ne_append_singleton _ _)
  · rw [h1] at hsent
    have hr : r = req := append_singleton_inj hsent
    subst hr
    rw [h2, hresp]
    simp only [hbody, hdecode]

/-- C11: when the request sent by `Register` is answered with a readable body that decodes to
a response with `success = false` and a non-empty error message, `Register` fails, whatever
the status code is; the text of the failure is `registration failed: ` followed by the error
message alone when the hint is empty, and by the error message, ` - ` and the hint when the
hint is non-empty. -/
theorem Register_failure_flag (lib : Lib) (name description : String) (w : World)
    (req : Request) (resp : Response) (body : Bytes) (raw : RegisterResponse)
    (hsent : (Register lib name description w).2.sent = w.sent ++ [req])
    (hresp : w.httpDo req = .ok resp)
    (hbody : resp.Body = .ok body)
    (hdecode : lib.jsonUnmarshalRegisterResponse body = .ok raw)
    (hsuccess : raw.Success = false)
    (herror : raw.Error ≠ "") :
    (raw.Hint = "" →
        (Register lib name description w).1 = .error ("registration failed: " ++ raw.Error))
      ∧ (raw.Hint ≠ "" →
          (Register lib name description w).1
            = .error ("registration failed: " ++ (raw.Error ++ " - " ++ raw.Hint))) := by
  rw [Register_result_of_decoded lib name description w req resp body raw hsent hresp hbody
    hdecode, if_pos ⟨hsuccess, herror⟩]
  constructor
  · intro hh
    simp [hh]
  · intro hh
    simp [hh]

/-- C16: when the request sent by `Register` is answered with a readable body that decodes
without a failure flag, `Register` succeeds exactly when the status is 200 or 201; for every
other status it fails with the error that carries the decimal status and the raw body. -/
theorem Register_accepts_200_201 (lib : Lib) (name description : String) (w : World)
    (req : Request) (resp : Response) (body : Bytes) (raw : RegisterResponse)
    (hsent : (Register lib name description w).2.sent = w.sent ++ [req])
    (hresp : w.httpDo req = .ok resp)
    (hbody : resp.Body = .ok body)
    (hdecode : lib.jsonUnmarshalRegisterResponse body = .ok raw)
    (hflag : ¬(raw.Success = false ∧ raw.Error ≠ "")) :
    ((∃ result, (Register lib name description w).1 = .ok result)
        ↔ resp.StatusCode = 200 ∨ resp.StatusCode = 201)
      ∧ (¬(resp.StatusCode = 200 ∨ resp.StatusCode = 201) →
          (Register lib name description w).1
            = .error ("registration failed (status " ++ toString resp.StatusCode ++ "): "
                ++ body)) := by
  rw [Register_result_of_decoded lib name description w req resp body raw hsent hresp hbody
    hdecode, if_neg hflag]
  by_cases hst : resp.StatusCode ≠ 200 ∧ resp.StatusCode ≠ 201
  · have hn : ¬(resp.StatusCode = 200 ∨ resp.StatusCode = 201) := by omega
    rw [if_pos hst]
    simp [hn]
  · have hy : resp.StatusCode = 200 ∨ resp.StatusCode = 201 := by omega
    rw [if_neg hst]
    refine ⟨⟨fun _ => hy, fun _ => ?_⟩, fun hn => absurd hy hn⟩
    cases raw.Agent with
    | none => exact ⟨_, rfl⟩
    | some agent => exact ⟨_, rfl⟩

/-! ## Effects of the client operations on the world -/

/-- The effect of `doRequest` on the world: nothing when it fails before sending, and
otherwise one more request in the list of sent requests, whose body is the marshalled
payload. -/
theorem doRequest_effect (lib : Lib) (c : Client) (method endpoint : String)
    (body : Option Payload) (w : World) :
    ((doRequest lib c method endpoint body w).2 = w
        ∧ (∃ err, (doRequest lib c method endpoint body w).1 = .error err)
        ∧ ((∃ b err, body = some b ∧ lib.jsonMarshal b = .error err)
            ∨ ∃ err, lib.newRequestErr method (BaseURL ++ endpoint) = some err))
      ∨ ∃ reqBody : Option Bytes,
          (match body with
            | none => reqBody = none
            | some b => ∃ jsonData, lib.jsonMarshal b = .ok jsonData ∧ reqBody = some jsonData)
            ∧ lib.newRequestErr method (BaseURL ++ endpoint) = none
            ∧ (doRequest lib c method endpoint body w).2 =
                { w with
                  sent := w.sent ++
                    [{ Method := method, URL := BaseURL ++ endpoint, Body := reqBody,
                       Header :=
                        (if c.apiKey ≠ "" then
                          [("Authorization", "Bearer " ++ c.apiKey),
                           ("Content-Type", "application/json")]
                        else [("Content-Type", "application/json")]) }] } := by
  unfold doRequest
  generalize hm : (match body with
    | none => (Except.ok none : Except String (Option Bytes))
    | some b =>
      match lib.jsonMarshal b with
      | .error err => .error ("failed to marshal request: " ++ err)
      | .ok jsonData => .ok (some jsonData)) = marshalled
  cases marshalled with
  | error e =>
    left
    refine ⟨by simp, by simp, Or.inl ?_⟩
    cases body with
    | none => simp at hm
    | some b =>
      cases hj : lib.jsonMarshal b with
      | error err => exact ⟨b, err, rfl, hj⟩
      | ok j => simp [hj] at hm
  | ok reqBody =>
    cases hn : lib.newRequestErr method (BaseURL ++ endpoint) with
    | some e => left; simp [NewRequest, hn]
    | none =>
      right
      refine ⟨reqBody, ?_, rfl, ?_⟩
      · cases body with
        | none => simpa using hm.symm
        | some b =>
          cases hj : lib.jsonMarshal b with
          | error err => simp [hj] at hm
          | ok j =>
            simp [hj] at hm
            exact ⟨j, hj, hm.symm⟩
      · by_cases hk : c.apiKey = ""
        · simp only [NewRequest, hn, hk, World.Do, Header.Set]
          simp only [ne_eq, not_true_eq_false, ite_false, List.filter_nil]
          cases hdo : w.httpDo
              { Method := method, URL := BaseURL ++ endpoint, Body := reqBody,
                Header := [("Content-Type", "application/json")] } with
          | error e => simp
          | ok resp =>
            cases hbody : resp.Body with
            | error e => simp [hbody]
            | ok respBody =>
              simp only [hbody]
              split_ifs <;> simp
        · simp only [NewRequest, hn, World.Do, Header.Set]
          simp [hk]
          cases hdo : w.httpDo
              { Method := method, URL := BaseURL ++ endpoint, Body := reqBody,
                Header := [("Authorization", "Bearer " ++ c.apiKey),
                           ("Content-Type", "application/json")] } with
          | error e => simp
          | ok resp =>
            cases hbody : resp.Body with
            | error e => simp [hbody]
            | ok respBody =>
              simp only [hbody]
              split_ifs <;> simp

/-- The world after `UpdateProfile` is the world after its call of `doRequest`. -/
theorem UpdateProfile_world (lib : Lib) (jl : JSONLib) (c : Client)
    (req : UpdateProfileRequest) (w : World) :
    (UpdateProfile lib jl c req w).2
      = (doRequest lib c "PATCH" "/agents/me" (some (.updateProfile req)) w).2 := by
  unfold UpdateProfile
  rcases doRequest lib c "PATCH" "/agents/me" (some (.updateProfile req)) w with ⟨r, w1⟩
  cases r with
  | error e => rfl
  | ok data => cases h : jl.jsonUnmarshalAgent data <;> simp [h]

/-- The world after `BrowsePosts` is the world after its call of `doRequest`. -/
theorem BrowsePosts_world (lib : Lib) (jl : JSONLib) (c : Client)
    (req : BrowsePostsRequest) (w : World) :
    (BrowsePosts lib jl c req w).2
      = (doRequest lib c "GET"
          (if req.Submolt ≠ "" then
            "/posts?limit=" ++ toString req.Limit ++ ("&submolt=" ++ req.Submolt)
           else "/posts?limit=" ++ toString req.Limit) none w).2 := by
  unfold BrowsePosts
  simp only []
  rcases doRequest lib c "GET"
      (if req.Submolt ≠ "" then
        "/posts?limit=" ++ toString req.Limit ++ ("&submolt=" ++ req.Submolt)
       else "/posts?limit=" ++ toString req.Limit) none w with ⟨r, w1⟩
  cases r with
  | error e => rfl
  | ok data => cases h : jl.jsonUnmarshalBrowsePostsResponse data <;> simp [h]

/-! ## Registration, continued -/

/-- C11, for status 200: a flagged body without a hint and one with a hint. -/
theorem Register_failure_flag_witness :
    (Register flagLib "a" "d" (serverWorld 200 "flagged")).1
        = .error "registration failed: name taken"
      ∧ (Register flagLib "a" "d" (serverWorld 200 "hinted")).1
        = .error "registration failed: name taken - pick another" :=
  ⟨(Register_failure_flag flagLib "a" "d" (serverWorld 200 "flagged")
      { Method := "POST", URL := "https://www.moltbook.com/api/v1/agents/register",
        Body := some "payload", Header := [("Content-Type", "application/json")] }
      { StatusCode := 200, Header := [("Retry-After", "7")], Body := .ok "flagged" } "flagged"
      { Success := false, Error := "name taken", Hint := "", Message := "", Agent := none,
        TweetTemplate := "", APIKey := "", AgentID := "", ClaimURL := "",
        VerificationCode := "" }
      (by decide) rfl rfl (by decide) rfl (by decide)).1 rfl,
   (Register_failure_flag flagLib "a" "d" (serverWorld 200 "hinted")
      { Method := "POST", URL := "https://www.moltbook.com/api/v1/agents/register",
        Body := some "payload", Header := [("Content-Type", "application/json")] }
      { StatusCode := 200, Header := [("Retry-After", "7")], Body := .ok "hinted" } "hinted"
      { Success := false, Error := "name taken", Hint := "pick another", Message := "",
        Agent := none, TweetTemplate := "", APIKey := "", AgentID := "", ClaimURL := "",
        VerificationCode := "" }
      (by decide) rfl rfl (by decide) rfl (by decide)).2 (by decide)⟩

/-- C16, for a body without a flag: status 202 is refused by `Register`, although `doRequest`
accepts it, and status 201 is accepted. -/
theorem Register_accepts_200_201_witness :
    (Register flagLib "a" "d" (serverWorld 202 "plain")).1
        = .error "registration failed (status 202): plain"
      ∧ (doRequest flagLib (NewClient "") "POST" "/agents/register" none
          (serverWorld 202 "plain")).1 = .ok "plain"
      ∧ ∃ result, (Register flagLib "a" "d" (serverWorld 201 "plain")).1 = .ok result :=
  ⟨(Register_accepts_200_201 flagLib "a" "d" (serverWorld 202 "plain")
      { Method := "POST", URL := "https://www.moltbook.com/api/v1/agents/register",
        Body := some "payload", Header := [("Content-Type", "application/json")] }
      { StatusCode := 202, Header := [("Retry-After", "7")], Body := .ok "plain" } "plain"
      { Success := true, Error := "", Hint := "", Message := "", Agent := none,
        TweetTemplate := "", APIKey := "key-flat", AgentID := "id-flat",
        ClaimURL := "claim-flat", VerificationCode := "code-flat" }
      (by decide) rfl rfl (by decide) (by decide)).2 (by decide),
   by decide,
   (Register_accepts_200_201 flagLib "a" "d" (serverWorld 201 "plain")
      { Method := "POST", URL := "https://www.moltbook.com/api/v1/agents/register",
        Body := some "payload", Header := [("Content-Type", "application/json")] }
      { StatusCode := 201, Header := [("Retry-After", "7")], Body := .ok "plain" } "plain"
      { Success := true, Error := "", Hint := "", Message := "", Agent := none,
        TweetTemplate := "", APIKey := "key-flat", AgentID := "id-flat",
        ClaimURL := "claim-flat", VerificationCode := "code-flat" }
      (by decide) rfl rfl (by decide) (by decide)).1.2 (Or.inr rfl)⟩

/-! ## Request construction of the client operations -/

/-- C12: when `json.Marshal` follows the struct tags, the request that `UpdateProfile` sends
has as body the JSON object with the single member `description` when the description is
non-empty and the empty object when it is empty: the member is in the payload exactly when
the description is non-empty. -/
theorem UpdateProfile_payload (lib : Lib) (jl : JSONLib) (c : Client)
    (req : UpdateProfileRequest) (w : World) (quote : String → String)
    (hmarshal : lib.jsonMarshal (.updateProfile req)
      = .ok (jsonMarshalByTags quote (.updateProfile req)))
    (hnew : lib.newRequestErr "PATCH" (BaseURL ++ "/agents/me") = none) :
    ∃ r : Request, (UpdateProfile lib jl c req w).2.sent = w.sent ++ [r]
      ∧ r.Body = some (jsonObject quote
          (if req.Description = "" then [] else [("description", req.Description)]))
      ∧ ((∃ v, ("description", v) ∈ jsonMembers (Payload.jsonFields (.updateProfile req)))
          ↔ req.Description ≠ "")
      ∧ (req.Description = "" → r.Body = some "\x7b\x7d") := by
  rw [UpdateProfile_world]
  rcases doRequest_effect lib c "PATCH" "/agents/me" (some (.updateProfile req)) w with
    ⟨_, _, ⟨b, e, hb, he⟩ | ⟨e, he⟩⟩ | ⟨reqBody, ⟨j, hj, hbody⟩, _, hw⟩
  · injection hb with hb
    subst hb
    rw [hmarshal] at he
    cases he
  · rw [hnew] at he
    cases he
  · rw [hmarshal] at hj
    injection hj with hj
    subst hj hbody
    refine ⟨_, by rw [hw], ?_, ?_, ?_⟩
    · by_cases hd : req.Description = "" <;>
        simp [jsonMarshalByTags, jsonMembers, Payload.jsonFields, hd]
    · by_cases hd : req.Description = "" <;>
        simp [jsonMembers, Payload.jsonFields, hd]
    · intro hd
      simp [jsonMarshalByTags, jsonMembers, Payload.jsonFields, hd, jsonObject,
        String.intercalate]

/-- C12, for the empty description, whose payload is the empty object, and for the description
`hi`. -/
theorem UpdateProfile_payload_witness :
    (UpdateProfile tagLib sampleJSON (NewClient "k") { Description := "" } emptyWorld).2.sent
        = [{ Method := "PATCH", URL := "https://www.moltbook.com/api/v1/agents/me",
             Body := some "\x7b\x7d",
             Header := [("Authorization", "Bearer k"), ("Content-Type", "application/json")] }]
      ∧ (UpdateProfile tagLib sampleJSON (NewClient "k") { Description := "hi" }
          emptyWorld).2.sent
        = [{ Method := "PATCH", URL := "https://www.moltbook.com/api/v1/agents/me",
             Body := some "\x7b\"description\":\"hi\"\x7d",
             Header := [("Authorization", "Bearer k"), ("Content-Type", "application/json")] }]
      ∧ ∃ r : Request,
          (UpdateProfile tagLib sampleJSON (NewClient "k") { Description := "" }
            emptyWorld).2.sent = emptyWorld.sent ++ [r]
            ∧ r.Body = some "\x7b\x7d" :=
  ⟨by decide, by decide,
   (UpdateProfile_payload tagLib sampleJSON (NewClient "k") { Description := "" } emptyWorld
      sampleQuote rfl rfl).imp (fun _ h => ⟨h.1, h.2.2.2 rfl⟩)⟩

/-- C13: every request that `BrowsePosts` sends is a `GET` of the endpoint `/posts?limit=`
followed by the decimal limit, and followed by `&submolt=` and the submolt exactly when the
submolt is non-empty; one request is sent whenever `http.NewRequest` accepts the URL. -/
theorem BrowsePosts_endpoint (lib : Lib) (jl : JSONLib) (c : Client)
    (req : BrowsePostsRequest) (w : World) :
    (∀ r : Request, (BrowsePosts lib jl c req w).2.sent = w.sent ++ [r] →
        r.Method = "GET"
          ∧ r.URL = BaseURL ++
              (if req.Submolt ≠ "" then
                "/posts?limit=" ++ toString req.Limit ++ "&submolt=" ++ req.Submolt
               else "/posts?limit=" ++ toString req.Limit))
      ∧ (lib.newRequestErr "GET" (BaseURL ++
            (if req.Submolt ≠ "" then
              "/posts?limit=" ++ toString req.Limit ++ "&submolt=" ++ req.Submolt
             else "/posts?limit=" ++ toString req.Limit)) = none →
          ∃ r : Request, (BrowsePosts lib jl c req w).2.sent = w.sent ++ [r]) := by
  have hep : (if req.Submolt ≠ "" then
        "/posts?limit=" ++ toString req.Limit ++ ("&submolt=" ++ req.Submolt)
       else "/posts?limit=" ++ toString req.Limit)
      = (if req.Submolt ≠ "" then
          "/posts?limit=" ++ toString req.Limit ++ "&submolt=" ++ req.Submolt
         else "/posts?limit=" ++ toString req.Limit) := by
    split_ifs
    · simp only [String.append_assoc]
    · rfl
  rw [BrowsePosts_world, hep]
  constructor
  · intro r hsent
    rcases doRequest_outcome lib c "GET" _ none w with ⟨h1, _⟩ | ⟨r2, h1, h2, h3, _, _⟩
    · rw [h1] at hsent
      exact absurd hsent (ne_append_singleton _ _)
    · rw [h1] at hsent
      have hr : r2 = r := append_singleton_inj hsent
      subst hr
      exact ⟨h2, h3⟩
  · intro hnew
    rcases doRequest_outcome lib c "GET" _ none w with
      ⟨_, _, ⟨b, e, hb, _⟩ | ⟨e, he⟩⟩ | ⟨r2, h1, _⟩
    · cases hb
    · rw [hnew] at he
      cases he
    · exact ⟨r2, h1⟩

/-- C13, for limit 5: without a submolt and with the submolt `general`. -/
theorem BrowsePosts_endpoint_witness :
    (BrowsePosts sampleLib sampleJSON (NewClient "k") { Submolt := "", Limit := 5 }
        emptyWorld).2.sent
        = [{ Method := "GET", URL := "https://www.moltbook.com/api/v1/posts?limit=5",
             Body := none,
             Header := [("Authorization", "Bearer k"), ("Content-Type", "application/json")] }]
      ∧ (BrowsePosts sampleLib sampleJSON (NewClient "k") { Submolt := "general", Limit := 5 }
          emptyWorld).2.sent
        = [{ Method := "GET",
             URL := "https://www.moltbook.com/api/v1/posts?limit=5&submolt=general",
             Body := none,
             Header := [("Authorization", "Bearer k"), ("Content-Type", "application/json")] }]
      ∧ (⟨"GET", "https://www.moltbook.com/api/v1/posts?limit=5&submolt=general", none,
            [("Authorization", "Bearer k"), ("Content-Type", "application/json")]⟩ : Request).URL
          = BaseURL ++
              (if ("general" : String) ≠ "" then
                "/posts?limit=" ++ toString (5 : Int) ++ "&submolt=" ++ "general"
               else "/posts?limit=" ++ toString (5 : Int)) :=
  ⟨by decide, by decide,
   ((BrowsePosts_endpoint sampleLib sampleJSON (NewClient "k")
      { Submolt := "general", Limit := 5 } emptyWorld).1 _ (by decide)).2⟩

/-! ## Frame facts for the commands -/

theorem sameDisk_refl (w : World) : w.sameDisk w := ⟨rfl, rfl, rfl, rfl⟩

theorem sameDisk_trans {w1 w2 w3 : World} (h12 : w1.sameDisk w2) (h23 : w2.sameDisk w3) :
    w1.sameDisk w3 :=
  ⟨h12.1.trans h23.1, h12.2.1.trans h23.2.1, h12.2.2.1.trans h23.2.2.1,
   h12.2.2.2.trans h23.2.2.2⟩

theorem sameDisk_print (w : World) (text : String) : (w.print text).sameDisk w :=
  ⟨rfl, rfl, rfl, rfl⟩

/-- A successful `doRequest` leaves the disk and the output as they are and sends exactly one
request. -/
theorem doRequest_ok (lib : Lib) (c : Client) (method endpoint : String)
    (body : Option Payload) (w w2 : World) (data : Bytes)
    (h : doRequest lib c method endpoint body w = (.ok data, w2)) :
    w2.sameDisk w ∧ w2.stdout = w.stdout ∧ ∃ r, w2.sent = w.sent ++ [r] := by
  have h1 : (doRequest lib c method endpoint body w).1 = .ok data := by rw [h]
  have h2 : (doRequest lib c method endpoint body w).2 = w2 := by rw [h]
  rcases doRequest_effect lib c method endpoint body w with
    ⟨_, ⟨err, herr⟩, _⟩ | ⟨reqBody, _, _, hw⟩
  · rw [herr] at h1
    cases h1
  · rw [h2] at hw
    subst hw
    exact ⟨⟨rfl, rfl, rfl, rfl⟩, rfl, _, rfl⟩

/-- A successful `CreatePost` leaves the disk and the output as they are and sends exactly one
request. -/
theorem CreatePost_ok (lib : Lib) (jl : JSONLib) (c : Client) (req : CreatePostRequest)
    (w w2 : World) (post : Post) (h : CreatePost lib jl c req w = (.ok post, w2)) :
    w2.sameDisk w ∧ w2.stdout = w.stdout ∧ ∃ r, w2.sent = w.sent ++ [r] := by
  unfold CreatePost at h
  rcases hd : doRequest lib c "POST" "/posts" (some (.createPost req)) w with ⟨r, w1⟩
  rw [hd] at h
  cases r with
  | error e => simp at h
  | ok data =>
    cases hu : jl.jsonUnmarshalPost data with
    | error e => simp [hu] at h
    | ok p =>
      simp [hu] at h
      obtain ⟨_, rfl⟩ := h
      exact doRequest_ok lib c _ _ _ w w1 data hd

/-- A successful `CreateComment` leaves the disk and the output as they are and sends exactly
one request. -/
theorem CreateComment_ok (lib : Lib) (jl : JSONLib) (c : Client) (postID content : String)
    (w w2 : World) (comment : Comment)
    (h : CreateComment lib jl c postID content w = (.ok comment, w2)) :
    w2.sameDisk w ∧ w2.stdout = w.stdout ∧ ∃ r, w2.sent = w.sent ++ [r] := by
  unfold CreateComment at h
  simp only [] at h
  rcases hd : doRequest lib c "POST" ("/posts/" ++ postID ++ "/comments")
      (some (.createComment { Content := content })) w with ⟨r, w1⟩
  rw [hd] at h
  cases r with
  | error e => simp at h
  | ok data =>
    cases hu : jl.jsonUnmarshalComment data with
    | error e => simp [hu] at h
    | ok p =>
      simp [hu] at h
      obtain ⟨_, rfl⟩ := h
      exact doRequest_ok lib c _ _ _ w w1 data hd

/-- A successful `BrowsePosts` leaves the disk and the output as they are and sends exactly
one request. -/
theorem BrowsePosts_ok (lib : Lib) (jl : JSONLib) (c : Client) (req : BrowsePostsRequest)
    (w w2 : World) (posts : List Post) (h : BrowsePosts lib jl c req w = (.ok posts, w2)) :
    w2.sameDisk w ∧ w2.stdout = w.stdout ∧ ∃ r, w2.sent = w.sent ++ [r] := by
  unfold BrowsePosts at h
  simp only [] at h
  rcases hd : doRequest lib c "GET"
      (if req.Submolt ≠ "" then
        "/posts?limit=" ++ toString req.Limit ++ ("&submolt=" ++ req.Submolt)
       else "/posts?limit=" ++ toString req.Limit) none w with ⟨r, w1⟩
  rw [hd] at h
  cases r with
  | error e => simp at h
  | ok data =>
    cases hu : jl.jsonUnmarshalBrowsePostsResponse data with
    | error e => simp [hu] at h
    | ok p =>
      simp [hu] at h
      obtain ⟨_, rfl⟩ := h
      exact doRequest_ok lib c _ _ _ w w1 data hd

/-- What `SaveState` does depends on the disk alone, it sends and prints nothing, and when it
fails the files are as before. -/
theorem SaveState_frame (lib : Lib) (s : State) (w1 w : World) (h : w1.sameDisk w) :
    (SaveState lib s w1).1 = (SaveState lib s w).1
      ∧ (SaveState lib s w1).2.readFile = (SaveState lib s w).2.readFile
      ∧ (SaveState lib s w1).2.sent = w1.sent
      ∧ (SaveState lib s w1).2.stdout = w1.stdout
      ∧ (∀ err, (SaveState lib s w).1 = .error err →
          (SaveState lib s w).2.readFile = w.readFile) := by
  obtain ⟨hh, hr, hm, hwf⟩ := h
  unfold SaveState GetStatePath GetConfigDir World.writeFile World.setFile
  rw [hh, hm, hwf, hr]
  cases w.userHomeDir with
  | error e => simp [hr]
  | ok home =>
    simp only []
    cases w.mkdirAllErr (filepathJoin [home, ".config", "moltbook"]) with
    | some e => simp [hr]
    | none =>
      simp only []
      cases lib.tomlEncodeState s with
      | error e => simp [hr]
      | ok buf =>
        simp only []
        cases w.writeFileErr
            (filepathJoin [filepathJoin [home, ".config", "moltbook"], "state.toml"]) with
        | some e => simp [hr]
        | none => simp [hr]

/-- The last step of `runPost` and of `runComment`, from a world `w3` with the disk of `w`:
the result is success, nothing is sent, the files are those that `SaveState` leaves from `w`,
and a failure of `SaveState` puts the warning on the output. -/
theorem save_step (lib : Lib) (saved : State) (w3 w : World) (h : w3.sameDisk w) :
    (match SaveState lib saved w3 with
      | (.error err, w5) =>
        ((.ok () : Except String Unit),
          w5.print ("Warning: failed to save state: " ++ err ++ "\n"))
      | (.ok (), w5) => (.ok (), w5)).1 = .ok ()
      ∧ (match SaveState lib saved w3 with
          | (.error err, w5) =>
            ((.ok () : Except String Unit),
              w5.print ("Warning: failed to save state: " ++ err ++ "\n"))
          | (.ok (), w5) => (.ok (), w5)).2.sent = w3.sent
      ∧ (match SaveState lib saved w3 with
          | (.error err, w5) =>
            ((.ok () : Except String Unit),
              w5.print ("Warning: failed to save state: " ++ err ++ "\n"))
          | (.ok (), w5) => (.ok (), w5)).2.readFile = (SaveState lib saved w).2.readFile
      ∧ (∀ err, (SaveState lib saved w).1 = .error err →
          ("Warning: failed to save state: " ++ err ++ "\n") ∈
            (match SaveState lib saved w3 with
              | (.error err, w5) =>
                ((.ok () : Except String Unit),
                  w5.print ("Warning: failed to save state: " ++ err ++ "\n"))
              | (.ok (), w5) => (.ok (), w5)).2.stdout) := by
  obtain ⟨f1, f2, f3, _, _⟩ := SaveState_frame lib saved w3 w h
  rcases hs : SaveState lib saved w3 with ⟨r, w5⟩
  rw [hs] at f1 f2 f3
  cases r with
  | error e =>
    refine ⟨rfl, f3, f2, ?_⟩
    intro err herr
    rw [← f1] at herr
    injection herr with herr
    subst herr
    simp [World.print]
  | ok u =>
    refine ⟨rfl, f3, f2, ?_⟩
    intro err herr
    rw [← f1] at herr
    cases herr

/-- What a run of `runComment` does when credentials and state load and the comment is
created. -/
theorem runComment_effect (lib : Lib) (jl : JSONLib) (postID text : String) (w w2 : World)
    (cfg : Config) (state : State) (comment : Comment)
    (hcred : LoadCredentials lib w = .ok cfg)
    (hstate : LoadState lib w = .ok state)
    (hremote : CreateComment lib jl (NewClient cfg.APIKey) postID text
      (w.print ("Adding comment to post " ++ postID ++ "...\n")) = (.ok comment, w2)) :
    (runComment lib jl postID text w).1 = .ok ()
      ∧ (∃ r, (runComment lib jl postID text w).2.sent = w.sent ++ [r])
      ∧ (runComment lib jl postID text w).2.readFile
          = (SaveState lib
              { state with CommentsCreated := wrapInt (state.CommentsCreated + 1) } w).2.readFile
      ∧ (∀ err, (SaveState lib
            { state with CommentsCreated := wrapInt (state.CommentsCreated + 1) } w).1
              = .error err →
          ("Warning: failed to save state: " ++ err ++ "\n")
            ∈ (runComment lib jl postID text w).2.stdout) := by
  obtain ⟨hd, _, r, hr⟩ := CreateComment_ok lib jl _ _ _ _ _ _ hremote
  have hdisk : (((w2.print "Comment added successfully!\n").print
      ("  ID: " ++ comment.ID ++ "\n")).print
      ("  Content: " ++ comment.Content ++ "\n")).sameDisk w :=
    sameDisk_trans ⟨hd.1, hd.2.1, hd.2.2.1, hd.2.2.2⟩ (sameDisk_print w _)
  obtain ⟨s1, s2, s3, s4⟩ := save_step lib
    { state with CommentsCreated := wrapInt (state.CommentsCreated + 1) } _ w hdisk
  unfold runComment
  simp only [hcred, hstate, hremote]
  exact ⟨s1, ⟨r, by rw [s2]; exact hr⟩, s3, s4⟩

/-- What a run of `runPost` does when content or URL is given, credentials and state load,
the rate limit does not apply and the post is created; `k` is the number of the clock reading
that stamps the post. -/
theorem runPost_effect (lib : Lib) (jl : JSONLib) (tl : TimeLib) (clock : Nat → Int)
    (postSubmolt postTitle postContent postURL : String) (w w2 : World)
    (cfg : Config) (state : State) (post : Post)
    (hinput : ¬(postContent = "" ∧ postURL = ""))
    (hcred : LoadCredentials lib w = .ok cfg)
    (hstate : LoadState lib w = .ok state)
    (hrate : ∀ lastPost, state.LastPostTime ≠ "" →
      tl.Parse RFC3339 state.LastPostTime = .ok lastPost →
      ¬(timeSub (clock 0) lastPost < 30 * Minute))
    (hremote : CreatePost lib jl (NewClient cfg.APIKey)
      { Submolt := postSubmolt, Title := postTitle, Content := postContent, URL := postURL }
      (w.print ("Creating post in /" ++ postSubmolt ++ "...\n")) = (.ok post, w2)) :
    ∃ k : Nat, k ≤ 1
      ∧ (runPost lib jl tl clock postSubmolt postTitle postContent postURL w).1 = .ok ()
      ∧ (∃ r, (runPost lib jl tl clock postSubmolt postTitle postContent postURL w).2.sent
          = w.sent ++ [r])
      ∧ (runPost lib jl tl clock postSubmolt postTitle postContent postURL w).2.readFile
          = (SaveState lib
              { state with
                PostsCreated := wrapInt (state.PostsCreated + 1)
                LastPostTime := tl.Format RFC3339 (clock k) } w).2.readFile
      ∧ (∀ err, (SaveState lib
            { state with
              PostsCreated := wrapInt (state.PostsCreated + 1)
              LastPostTime := tl.Format RFC3339 (clock k) } w).1 = .error err →
          ("Warning: failed to save state: " ++ err ++ "\n")
            ∈ (runPost lib jl tl clock postSubmolt postTitle postContent postURL w).2.stdout) := by
  obtain ⟨hd, _, r, hr⟩ := CreatePost_ok lib jl _ _ _ _ _ hremote
  have hdisk : ((((w2.print "Post created successfully!\n").print
      ("  ID: " ++ post.ID ++ "\n")).print ("  Title: " ++ post.Title ++ "\n")).print
      ("  Submolt: /" ++ post.Submolt ++ "\n")).sameDisk w :=
    sameDisk_trans ⟨hd.1, hd.2.1, hd.2.2.1, hd.2.2.2⟩ (sameDisk_print w _)
  have step := fun k : Nat => save_step lib
    { state with
      PostsCreated := wrapInt (state.PostsCreated + 1)
      LastPostTime := tl.Format RFC3339 (clock k) } _ w hdisk
  unfold runPost
  rw [if_neg hinput]
  simp only [hcred, hstate]
  by_cases hl : state.LastPostTime = ""
  · refine ⟨0, by omega, ?_⟩
    simp only [hl, ne_eq, not_true_eq_false, ite_false, hremote]
    obtain ⟨s1, s2, s3, s4⟩ := step 0
    exact ⟨s1, ⟨r, by rw [s2]; exact hr⟩, s3, s4⟩
  · cases hp : tl.Parse RFC3339 state.LastPostTime with
    | error e =>
      refine ⟨0, by omega, ?_⟩
      simp only [hl, hp, ne_eq, not_false_eq_true, ite_true, hremote]
      obtain ⟨s1, s2, s3, s4⟩ := step 0
      exact ⟨s1, ⟨r, by rw [s2]; exact hr⟩, s3, s4⟩
    | ok lastPost =>
      refine ⟨1, by omega, ?_⟩
      have hr2 := hrate lastPost hl hp
      simp only [hl, hp, ne_eq, not_false_eq_true, ite_true, hr2, ite_false, hremote]
      obtain ⟨s1, s2, s3, s4⟩ := step 1
      exact ⟨s1, ⟨r, by rw [s2]; exact hr⟩, s3, s4⟩

/-- Printing the lines of the posts changes the output alone, and only by adding to it. -/
theorem heartbeatLines_frame (entries : List (Nat × Post)) (w : World) :
    (entries.foldl heartbeatLines w).sameDisk w
      ∧ (entries.foldl heartbeatLines w).sent = w.sent := by
  induction entries generalizing w with
  | nil => exact ⟨sameDisk_refl w, rfl⟩
  | cons e es ih =>
    obtain ⟨h1, h2⟩ := ih (heartbeatLines w e)
    exact ⟨sameDisk_trans h1 ⟨rfl, rfl, rfl, rfl⟩, h2⟩

/-- What a run of `runHeartbeat` does when credentials and state load and the posts are
fetched. -/
theorem runHeartbeat_effect (lib : Lib) (jl : JSONLib) (tl : TimeLib) (clock : Nat → Int)
    (w w2 : World) (cfg : Config) (state : State) (posts : List Post)
    (hcred : LoadCredentials lib w = .ok cfg)
    (hstate : LoadState lib w = .ok state)
    (hremote : BrowsePosts lib jl (NewClient cfg.APIKey) { Submolt := "", Limit := 5 }
      ((w.print ("Heartbeat check at " ++ tl.Format "2006-01-02 15:04:05" (clock 0)
        ++ "\n\n")).print "Browsing recent posts...\n") = (.ok posts, w2)) :
    (runHeartbeat lib jl tl clock w).1 = .ok ()
      ∧ (∃ r, (runHeartbeat lib jl tl clock w).2.sent = w.sent ++ [r])
      ∧ (runHeartbeat lib jl tl clock w).2.readFile
          = (SaveState lib
              { state with LastMoltbookCheck := tl.Format RFC3339 (clock 0) } w).2.readFile
      ∧ (∀ err, (SaveState lib
            { state with LastMoltbookCheck := tl.Format RFC3339 (clock 0) } w).1
              = .error err →
          ("\nWarning: failed to save state: " ++ err ++ "\n")
            ∈ (runHeartbeat lib jl tl clock w).2.stdout) := by
  obtain ⟨hd, _, r, hr⟩ := BrowsePosts_ok lib jl _ _ _ _ _ hremote
  have hd0 : w2.sameDisk w := ⟨hd.1, hd.2.1, hd.2.2.1, hd.2.2.2⟩
  have hr0 : w2.sent = w.sent ++ [r] := hr
  unfold runHeartbeat
  simp only [hcred, hstate, hremote]
  generalize hw3 : (if posts.length > 0 then
      (posts.take 3).enum.foldl heartbeatLines
        (w2.print ("\nFound " ++ toString posts.length ++ " recent posts:\n\n"))
    else w2.print "  No posts found.\n") = w3
  have hdisk : w3.sameDisk w ∧ w3.sent = w.sent ++ [r] := by
    rw [← hw3]
    split_ifs
    · obtain ⟨h1, h2⟩ := heartbeatLines_frame (posts.take 3).enum
        (w2.print ("\nFound " ++ toString posts.length ++ " recent posts:\n\n"))
      exact ⟨sameDisk_trans h1 (sameDisk_trans (sameDisk_print w2 _) hd0), h2.trans hr0⟩
    · exact ⟨sameDisk_trans (sameDisk_print w2 _) hd0, hr0⟩
  obtain ⟨f1, f2, f3, _, _⟩ := SaveState_frame lib
    { state with LastMoltbookCheck := tl.Format RFC3339 (clock 0) } w3 w hdisk.1
  rcases hs : SaveState lib
    { state with LastMoltbookCheck := tl.Format RFC3339 (clock 0) } w3 with ⟨res, w5⟩
  rw [hs] at f1 f2 f3
  cases res with
  | error e =>
    refine ⟨trivial, ⟨r, ?_⟩, ?_, ?_⟩
    · simp only [World.print]
      rw [f3]
      exact hdisk.2
    · simp only [World.print]
      exact f2
    · intro err herr
      rw [← f1] at herr
      injection herr with herr
      subst herr
      simp [World.print]
  | ok u =>
    refine ⟨trivial, ⟨r, ?_⟩, ?_, ?_⟩
    · simp only [World.print]
      rw [f3]
      exact hdisk.2
    · simp only [World.print]
      exact f2
    · intro err herr
      rw [← f1] at herr
      cases herr

/-- A successful `SaveState` writes the encoding of the state to the state file. -/
theorem SaveState_ok_writes (lib : Lib) (s : State) (w : World)
    (h : (SaveState lib s w).1 = .ok ()) :
    ∃ path buf, GetStatePath w = .ok path ∧ lib.tomlEncodeState s = .ok buf
      ∧ (SaveState lib s w).2.readFile path = .ok buf := by
  unfold SaveState at h ⊢
  cases hd : GetConfigDir w with
  | error e => simp [hd] at h
  | ok dir =>
    have hp : GetStatePath w = .ok (filepathJoin [dir, "state.toml"]) := by
      simp [GetStatePath, hd]
    simp only [hd, hp] at h ⊢
    cases hm : w.mkdirAllErr dir with
    | some e => simp [hm] at h
    | none =>
      cases he : lib.tomlEncodeState s with
      | error e => simp [hm, he] at h
      | ok buf =>
        cases hw : w.writeFileErr (filepathJoin [dir, "state.toml"]) with
        | some e => simp [hm, he, World.writeFile, hw] at h
        | none =>
          refine ⟨_, buf, rfl, rfl, ?_⟩
          simp [World.writeFile, hw, World.setFile]

/-- Adding one to a Go `int` below the largest one does not wrap around. -/
theorem wrapInt_succ (x : Int) (hlo : minInt ≤ x) (hhi : x < maxInt) :
    wrapInt (x + 1) = x + 1 := by
  unfold wrapInt
  unfold minInt at hlo
  unfold maxInt at hhi
  omega

/-! ## Usage counters -/

/-- C14, as amended: in a run that reaches the save, the files after the command are those
that `SaveState` leaves for a state `saved`, whose encoding is what a successful save writes
to the state file. For `runPost`, when the loaded `PostsCreated` is a Go `int` below the
largest one, `saved` has `PostsCreated` raised by one and `CommentsCreated` unchanged; for
`runComment`, when the loaded `CommentsCreated` is a Go `int` below the largest one, `saved`
has `CommentsCreated` raised by one and `PostsCreated` unchanged; for `runHeartbeat` both are
unchanged. So neither counter decreases. -/
theorem counters_monotone (lib : Lib) (jl : JSONLib) (tl : TimeLib) (clock : Nat → Int)
    (w : World) :
    (∀ (postSubmolt postTitle postContent postURL : String) (w2 : World) (cfg : Config)
        (state : State) (post : Post),
        ¬(postContent = "" ∧ postURL = "") →
        LoadCredentials lib w = .ok cfg →
        LoadState lib w = .ok state →
        (∀ lastPost, state.LastPostTime ≠ "" →
          tl.Parse RFC3339 state.LastPostTime = .ok lastPost →
          ¬(timeSub (clock 0) lastPost < 30 * Minute)) →
        CreatePost lib jl (NewClient cfg.APIKey)
          { Submolt := postSubmolt, Title := postTitle, Content := postContent,
            URL := postURL }
          (w.print ("Creating post in /" ++ postSubmolt ++ "...\n")) = (.ok post, w2) →
        minInt ≤ state.PostsCreated → state.PostsCreated < maxInt →
        ∃ saved : State,
          (runPost lib jl tl clock postSubmolt postTitle postContent postURL w).2.readFile
              = (SaveState lib saved w).2.readFile
            ∧ ((SaveState lib saved w).1 = .ok () →
                ∃ path buf, GetStatePath w = .ok path ∧ lib.tomlEncodeState saved = .ok buf
                  ∧ (runPost lib jl tl clock postSubmolt postTitle postContent postURL
                      w).2.readFile path = .ok buf)
            ∧ saved.PostsCreated = state.PostsCreated + 1
            ∧ saved.CommentsCreated = state.CommentsCreated
            ∧ saved.PostsCreated ≥ state.PostsCreated
            ∧ saved.CommentsCreated ≥ state.CommentsCreated)
      ∧ (∀ (postID text : String) (w2 : World) (cfg : Config) (state : State)
          (comment : Comment),
          LoadCredentials lib w = .ok cfg →
          LoadState lib w = .ok state →
          CreateComment lib jl (NewClient cfg.APIKey) postID text
            (w.print ("Adding comment to post " ++ postID ++ "...\n")) = (.ok comment, w2) →
          minInt ≤ state.CommentsCreated → state.CommentsCreated < maxInt →
          ∃ saved : State,
            (runComment lib jl postID text w).2.readFile = (SaveState lib saved w).2.readFile
              ∧ ((SaveState lib saved w).1 = .ok () →
                  ∃ path buf, GetStatePath w = .ok path ∧ lib.tomlEncodeState saved = .ok buf
                    ∧ (runComment lib jl postID text w).2.readFile path = .ok buf)
              ∧ saved.CommentsCreated = state.CommentsCreated + 1
              ∧ saved.PostsCreated = state.PostsCreated
              ∧ saved.PostsCreated ≥ state.PostsCreated
              ∧ saved.CommentsCreated ≥ state.CommentsCreated)
      ∧ (∀ (w2 : World) (cfg : Config) (state : State) (posts : List Post),
          LoadCredentials lib w = .ok cfg →
          LoadState lib w = .ok state →
          BrowsePosts lib jl (NewClient cfg.APIKey) { Submolt := "", Limit := 5 }
            ((w.print ("Heartbeat check at " ++ tl.Format "2006-01-02 15:04:05" (clock 0)
              ++ "\n\n")).print "Browsing recent posts...\n") = (.ok posts, w2) →
          ∃ saved : State,
            (runHeartbeat lib jl tl clock w).2.readFile = (SaveState lib saved w).2.readFile
              ∧ ((SaveState lib saved w).1 = .ok () →
                  ∃ path buf, GetStatePath w = .ok path ∧ lib.tomlEncodeState saved = .ok buf
                    ∧ (runHeartbeat lib jl tl clock w).2.readFile path = .ok buf)
              ∧ saved.PostsCreated = state.PostsCreated
              ∧ saved.CommentsCreated = state.CommentsCreated) := by
  refine ⟨?_, ?_, ?_⟩
  · intro postSubmolt postTitle postContent postURL w2 cfg state post hinput hcred hstate
      hrate hremote hlo hhi
    obtain ⟨k, _, _, _, hfile, _⟩ := runPost_effect lib jl tl clock postSubmolt postTitle
      postContent postURL w w2 cfg state post hinput hcred hstate hrate hremote
    have hw := wrapInt_succ state.PostsCreated hlo hhi
    refine ⟨_, hfile, ?_, hw, rfl, ?_, le_refl _⟩
    · intro hok
      obtain ⟨path, buf, h1, h2, h3⟩ := SaveState_ok_writes lib _ w hok
      exact ⟨path, buf, h1, h2, by rw [hfile]; exact h3⟩
    · show wrapInt (state.PostsCreated + 1) ≥ state.PostsCreated
      rw [hw]
      omega
  · intro postID text w2 cfg state comment hcred hstate hremote hlo hhi
    obtain ⟨_, _, hfile, _⟩ := runComment_effect lib jl postID text w w2 cfg state comment
      hcred hstate hremote
    have hw := wrapInt_succ state.CommentsCreated hlo hhi
    refine ⟨_, hfile, ?_, hw, rfl, le_refl _, ?_⟩
    · intro hok
      obtain ⟨path, buf, h1, h2, h3⟩ := SaveState_ok_writes lib _ w hok
      exact ⟨path, buf, h1, h2, by rw [hfile]; exact h3⟩
    · show wrapInt (state.CommentsCreated + 1) ≥ state.CommentsCreated
      rw [hw]
      omega
  · intro w2 cfg state posts hcred hstate hremote
    obtain ⟨_, _, hfile, _⟩ := runHeartbeat_effect lib jl tl clock w w2 cfg state posts
      hcred hstate hremote
    refine ⟨_, hfile, ?_, rfl, rfl⟩
    intro hok
    obtain ⟨path, buf, h1, h2, h3⟩ := SaveState_ok_writes lib _ w hok
    exact ⟨path, buf, h1, h2, by rw [hfile]; exact h3⟩

/-- C14, as amended, for `runComment` from the zero state: the state file gets the encoding of
a state with one comment and no post. -/
theorem counters_monotone_witness :
    LoadCredentials counterLib (keyWorld "moltbook_sk_0123456789abcdef" 201 "comment" none)
        = .ok { APIKey := "moltbook_sk_0123456789abcdef", AgentName := "MoltGoAgent" }
      ∧ LoadState counterLib (keyWorld "moltbook_sk_0123456789abcdef" 201 "comment" none)
        = .ok { LastMoltbookCheck := "", PostsCreated := 0, CommentsCreated := 0,
                LastPostTime := "" }
      ∧ (runComment counterLib sampleJSON "p1" "nice"
          (keyWorld "moltbook_sk_0123456789abcdef" 201 "comment" none)).2.readFile
            "/home/u/.config/moltbook/state.toml" = .ok "0 1"
      ∧ ∃ saved : State,
          (runComment counterLib sampleJSON "p1" "nice"
              (keyWorld "moltbook_sk_0123456789abcdef" 201 "comment" none)).2.readFile
            = (SaveState counterLib saved
                (keyWorld "moltbook_sk_0123456789abcdef" 201 "comment" none)).2.readFile
            ∧ saved.CommentsCreated = 1 ∧ saved.PostsCreated = 0 :=
  ⟨by decide, by decide, by decide,
   ((counters_monotone counterLib sampleJSON sampleTime (fun _ => 0)
      (keyWorld "moltbook_sk_0123456789abcdef" 201 "comment" none)).2.1 "p1" "nice" _
      { APIKey := "moltbook_sk_0123456789abcdef", AgentName := "MoltGoAgent" }
      { LastMoltbookCheck := "", PostsCreated := 0, CommentsCreated := 0, LastPostTime := "" }
      { ID := "c1", PostID := "p1", Content := "nice", Author := "a", Score := 0,
        CreatedAt := "" }
      (by decide) (by decide) rfl (by decide) (by decide)).imp
     (fun _ h => ⟨h.1, h.2.2.1, h.2.2.2.1⟩)⟩

/-- C14 as stated fails for a loaded counter equal to the largest Go `int`: the state file
holds `CommentsCreated = 9223372036854775807`, `runComment` succeeds, and the state file then
holds `CommentsCreated = -9223372036854775808`, which is smaller and is not the loaded value
plus one. -/
theorem counters_monotone_counterexample :
    LoadState counterLib
        (keyWorld "moltbook_sk_0123456789abcdef" 201 "comment" (some "0 9223372036854775807"))
        = .ok { LastMoltbookCheck := "", PostsCreated := 0,
                CommentsCreated := 9223372036854775807, LastPostTime := "" }
      ∧ (runComment counterLib sampleJSON "p1" "nice"
          (keyWorld "moltbook_sk_0123456789abcdef" 201 "comment"
            (some "0 9223372036854775807"))).1 = .ok ()
      ∧ (runComment counterLib sampleJSON "p1" "nice"
          (keyWorld "moltbook_sk_0123456789abcdef" 201 "comment"
            (some "0 9223372036854775807"))).2.readFile
            "/home/u/.config/moltbook/state.toml" = .ok "0 -9223372036854775808"
      ∧ LoadState counterLib
          (runComment counterLib sampleJSON "p1" "nice"
            (keyWorld "moltbook_sk_0123456789abcdef" 201 "comment"
              (some "0 9223372036854775807"))).2
        = .ok { LastMoltbookCheck := "", PostsCreated := 0,
                CommentsCreated := -9223372036854775808, LastPostTime := "" }
      ∧ ¬((-9223372036854775808 : Int) ≥ 9223372036854775807)
      ∧ (-9223372036854775808 : Int) ≠ 9223372036854775807 + 1 := by
  refine ⟨by decide, by decide, by decide, by decide, by decide, by decide⟩

/-- C15: in a run of `runPost`, `runComment` or `runHeartbeat` in which the remote operation
succeeds, the result of the command is success, exactly one request is sent, and a failure of
the save of the state puts the warning with its error on the output; nothing is assumed of
`SaveState`, which may succeed or fail. -/
theorem save_failure_not_fatal (lib : Lib) (jl : JSONLib) (tl : TimeLib) (clock : Nat → Int)
    (w : World) :
    (∀ (postSubmolt postTitle postContent postURL : String) (w2 : World) (cfg : Config)
        (state : State) (post : Post),
        ¬(postContent = "" ∧ postURL = "") →
        LoadCredentials lib w = .ok cfg →
        LoadState lib w = .ok state →
        (∀ lastPost, state.LastPostTime ≠ "" →
          tl.Parse RFC3339 state.LastPostTime = .ok lastPost →
          ¬(timeSub (clock 0) lastPost < 30 * Minute)) →
        CreatePost lib jl (NewClient cfg.APIKey)
          { Submolt := postSubmolt, Title := postTitle, Content := postContent,
            URL := postURL }
          (w.print ("Creating post in /" ++ postSubmolt ++ "...\n")) = (.ok post, w2) →
        (runPost lib jl tl clock postSubmolt postTitle postContent postURL w).1 = .ok ()
          ∧ (∃ r, (runPost lib jl tl clock postSubmolt postTitle postContent postURL w).2.sent
              = w.sent ++ [r])
          ∧ ∃ k : Nat, k ≤ 1 ∧ ∀ err,
              (SaveState lib
                { state with
                  PostsCreated := wrapInt (state.PostsCreated + 1)
                  LastPostTime := tl.Format RFC3339 (clock k) } w).1 = .error err →
              ("Warning: failed to save state: " ++ err ++ "\n")
                ∈ (runPost lib jl tl clock postSubmolt postTitle postContent postURL
                    w).2.stdout)
      ∧ (∀ (postID text : String) (w2 : World) (cfg : Config) (state : State)
          (comment : Comment),
          LoadCredentials lib w = .ok cfg →
          LoadState lib w = .ok state →
          CreateComment lib jl (NewClient cfg.APIKey) postID text
            (w.print ("Adding comment to post " ++ postID ++ "...\n")) = (.ok comment, w2) →
          (runComment lib jl postID text w).1 = .ok ()
            ∧ (∃ r, (runComment lib jl postID text w).2.sent = w.sent ++ [r])
            ∧ ∀ err,
                (SaveState lib
                  { state with CommentsCreated := wrapInt (state.CommentsCreated + 1) } w).1
                    = .error err →
                ("Warning: failed to save state: " ++ err ++ "\n")
                  ∈ (runComment lib jl postID text w).2.stdout)
      ∧ (∀ (w2 : World) (cfg : Config) (state : State) (posts : List Post),
          LoadCredentials lib w = .ok cfg →
          LoadState lib w = .ok state →
          BrowsePosts lib jl (NewClient cfg.APIKey) { Submolt := "", Limit := 5 }
            ((w.print ("Heartbeat check at " ++ tl.Format "2006-01-02 15:04:05" (clock 0)
              ++ "\n\n")).print "Browsing recent posts...\n") = (.ok posts, w2) →
          (runHeartbeat lib jl tl clock w).1 = .ok ()
            ∧ (∃ r, (runHeartbeat lib jl tl clock w).2.sent = w.sent ++ [r])
            ∧ ∀ err,
                (SaveState lib
                  { state with LastMoltbookCheck := tl.Format RFC3339 (clock 0) } w).1
                    = .error err →
                ("\nWarning: failed to save state: " ++ err ++ "\n")
                  ∈ (runHeartbeat lib jl tl clock w).2.stdout) := by
  refine ⟨?_, ?_, ?_⟩
  · intro postSubmolt postTitle postContent postURL w2 cfg state post hinput hcred hstate
      hrate hremote
    obtain ⟨k, hk, hres, hsent, _, hwarn⟩ := runPost_effect lib jl tl clock postSubmolt
      postTitle postContent postURL w w2 cfg state post hinput hcred hstate hrate hremote
    exact ⟨hres, hsent, k, hk, hwarn⟩
  · intro postID text w2 cfg state comment hcred hstate hremote
    obtain ⟨hres, hsent, _, hwarn⟩ := runComment_effect lib jl postID text w w2 cfg state
      comment hcred hstate hremote
    exact ⟨hres, hsent, hwarn⟩
  · intro w2 cfg state posts hcred hstate hremote
    obtain ⟨hres, hsent, _, hwarn⟩ := runHeartbeat_effect lib jl tl clock w w2 cfg state posts
      hcred hstate hremote
    exact ⟨hres, hsent, hwarn⟩

/-- C15, in a world where every `os.WriteFile` fails: `SaveState` fails, `runComment` still
succeeds, one request is sent and the warning is printed. -/
theorem save_failure_not_fatal_witness :
    (SaveState sampleLib
        { LastMoltbookCheck := "", PostsCreated := 0, CommentsCreated := wrapInt (0 + 1),
          LastPostTime := "" }
        (readOnlyWorld "moltbook_sk_0123456789abcdef" 201 "comment")).1
        = .error "failed to write state: read-only file system"
      ∧ (runComment sampleLib sampleJSON "p1" "nice"
          (readOnlyWorld "moltbook_sk_0123456789abcdef" 201 "comment")).1 = .ok ()
      ∧ (∃ r, (runComment sampleLib sampleJSON "p1" "nice"
          (readOnlyWorld "moltbook_sk_0123456789abcdef" 201 "comment")).2.sent
            = (readOnlyWorld "moltbook_sk_0123456789abcdef" 201 "comment").sent ++ [r])
      ∧ ("Warning: failed to save state: " ++ "failed to write state: read-only file system"
          ++ "\n")
          ∈ (runComment sampleLib sampleJSON "p1" "nice"
              (readOnlyWorld "moltbook_sk_0123456789abcdef" 201 "comment")).2.stdout :=
  have h := (save_failure_not_fatal sampleLib sampleJSON sampleTime (fun _ => 0)
      (readOnlyWorld "moltbook_sk_0123456789abcdef" 201 "comment")).2.1 "p1" "nice" _
      { APIKey := "moltbook_sk_0123456789abcdef", AgentName := "MoltGoAgent" }
      { LastMoltbookCheck := "", PostsCreated := 0, CommentsCreated := 0, LastPostTime := "" }
      { ID := "c1", PostID := "p1", Content := "nice", Author := "a", Score := 0,
        CreatedAt := "" }
      (by decide) (by decide) rfl
  ⟨by decide, h.1, h.2.1, h.2.2 _ (by decide)⟩

/-! ## The status command -/

/-- C17 fails on the code: when the credentials load with an API key shorter than 20 bytes and
the state loads, `runStatus` is aborted by the panic of the slice `cfg.APIKey[:20]`. -/
theorem runStatus_short_key_panics (lib : Lib) (jl : JSONLib) (tl : TimeLib)
    (clock : Nat → Int) (w : World) (cfg : Config) (state : State)
    (hcred : LoadCredentials lib w = .ok cfg)
    (hstate : LoadState lib w = .ok state)
    (hshort : cfg.APIKey.length < 20) :
    (runStatus lib jl tl clock w).1
      = .panicked ("runtime error: slice bounds out of range [:20] with length "
          ++ toString cfg.APIKey.length) := by
  have hs : sliceTo cfg.APIKey 20 = none := by
    unfold sliceTo
    rw [if_neg (by omega)]
  unfold runStatus
  simp only [hcred, hstate, hs]

/-- C17 fails on the code, with `MOLTBOOK_API_KEY=short-key` in the environment:
`LoadCredentials` returns the key of 9 bytes and `runStatus` panics. -/
theorem runStatus_short_key_panics_witness :
    LoadCredentials sampleLib (keyWorld "short-key" 200 "profile" none)
        = .ok { APIKey := "short-key", AgentName := "MoltGoAgent" }
      ∧ LoadState sampleLib (keyWorld "short-key" 200 "profile" none)
        = .ok { LastMoltbookCheck := "", PostsCreated := 0, CommentsCreated := 0,
                LastPostTime := "" }
      ∧ (runStatus sampleLib sampleJSON sampleTime (fun _ => 0)
          (keyWorld "short-key" 200 "profile" none)).1
        = .panicked "runtime error: slice bounds out of range [:20] with length 9" :=
  ⟨by decide, by decide,
   runStatus_short_key_panics sampleLib sampleJSON sampleTime (fun _ => 0)
     (keyWorld "short-key" 200 "profile" none)
     { APIKey := "short-key", AgentName := "MoltGoAgent" }
     { LastMoltbookCheck := "", PostsCreated := 0, CommentsCreated := 0, LastPostTime := "" }
     (by decide) (by decide) (by decide)⟩

end MoltGo
